import Mathlib

/-!
# VulkanApp: the renderer bring-up sequence (`VulkanRenderer.cpp`)

A shallow embedding of `VulkanRenderer`: the methods are state-passing
functions over the object's fields together with the trace of native calls
made so far.  The graphics driver and the windowing library are an
environment `Env` that fixes what every native query answers.
-/

namespace VulkanApp

/-! ## Native API vocabulary -/

/-- A `VkResult` code. -/
abbrev VkResult := Int

def VK_SUCCESS : VkResult := 0
def VK_ERROR_EXTENSION_NOT_PRESENT : VkResult := -7

def EXIT_SUCCESS : Int := 0
def EXIT_FAILURE : Int := 1

/-- `VK_QUEUE_GRAPHICS_BIT` of `VkQueueFlagBits`. -/
def VK_QUEUE_GRAPHICS_BIT : Nat := 1

def VK_EXT_DEBUG_UTILS_EXTENSION_NAME : String := "VK_EXT_debug_utils"

def VK_STRUCTURE_TYPE_DEVICE_CREATE_INFO : Nat := 3
def VK_STRUCTURE_TYPE_DEBUG_UTILS_MESSENGER_CREATE_INFO_EXT : Nat := 1000128004

/-- Conversion to `uint32_t` (`static_cast<uint32_t>` and the implicit
conversion of an `int`): reduction modulo `2^32`. -/
def toUint32 (v : Int) : Nat := (v % 4294967296).toNat

/-- The loop of `strcmp` over the characters before the terminator.  C fixes
only the sign of the result, so the first difference is reported as `-1` or
`1`; a string that ends first is the smaller one. -/
def strcmpChars : List Char → List Char → Int
  | [], [] => 0
  | [], _ :: _ => -1
  | _ :: _, [] => 1
  | c :: cs, d :: ds =>
    if c = d then strcmpChars cs ds else if c.toNat < d.toNat then -1 else 1

/-- C `strcmp` on two NUL-terminated strings, each given by the characters
before its terminator. -/
def strcmp (a b : String) : Int := strcmpChars a.data b.data

/-! ## Records exchanged with the driver -/

structure VkExtensionProperties where
  extensionName : String
  specVersion : Nat
deriving DecidableEq

structure VkLayerProperties where
  layerName : String
  specVersion : Nat
  implementationVersion : Nat
  description : String
deriving DecidableEq

/-- The fields of `VkQueueFamilyProperties` the renderer reads (both
`uint32_t`). -/
structure VkQueueFamilyProperties where
  queueFlags : Nat
  queueCount : Nat
deriving DecidableEq

/-- A physical device as the driver enumerates it: its handle and the queue
families `vkGetPhysicalDeviceQueueFamilyProperties` reports for it. -/
structure VkPhysicalDevice where
  handle : Nat
  queueFamilies : List VkQueueFamilyProperties
deriving DecidableEq

/-- Modelled from the spec: `QueueFamilyIndices` is declared in
`VulkanUtilities.h`, which is not among the sources.  The record holds the
index of a graphics-capable queue family, unset (`-1`) until one is found. -/
structure QueueFamilyIndices where
  graphicsFamily : Int := -1
deriving DecidableEq

/-- Modelled from the spec: `QueueFamilyIndices::isValid` of
`VulkanUtilities.h`; the record is valid once `graphicsFamily` holds a
non-negative index. -/
def QueueFamilyIndices.isValid (indices : QueueFamilyIndices) : Bool :=
  decide (0 ≤ indices.graphicsFamily)

structure VkApplicationInfo where
  sType : Nat
  pApplicationName : String
  applicationVersion : Nat
  pEngineName : String
  engineVersion : Nat
  apiVersion : Nat
deriving DecidableEq

structure VkDebugUtilsMessengerCreateInfoEXT where
  sType : Nat
  messageSeverity : Nat
  messageType : Nat
  pfnUserCallback : Nat
deriving DecidableEq

/-- The `VkInstanceCreateInfo` handed to `vkCreateInstance`; a null
`ppEnabledLayerNames` or `pNext` is `none`. -/
structure VkInstanceCreateInfo where
  sType : Nat
  pNext : Option VkDebugUtilsMessengerCreateInfoEXT
  pApplicationInfo : VkApplicationInfo
  enabledLayerCount : Nat
  ppEnabledLayerNames : Option (List String)
  enabledExtensionCount : Nat
  ppEnabledExtensionNames : List String
deriving DecidableEq

/-- The `VkDeviceQueueCreateInfo` of the single requested queue; the
priorities are `float`s of which only `1.0f` occurs, written `1`. -/
structure VkDeviceQueueCreateInfo where
  sType : Nat
  queueFamilyIndex : Nat
  queueCount : Nat
  pQueuePriorities : List Nat
deriving DecidableEq

/-- The `VkDeviceCreateInfo` handed to `vkCreateDevice`; `pEnabledFeatures`
points to a zero-initialised feature set and carries no information. -/
structure VkDeviceCreateInfo where
  sType : Nat
  queueCreateInfoCount : Nat
  pQueueCreateInfos : List VkDeviceQueueCreateInfo
  enabledExtensionCount : Nat
  ppEnabledExtensionNames : Option (List String)
deriving DecidableEq

/-- One call into the graphics API or the windowing library.  The
enumeration functions are called twice, first for the count
(`withData = false`), then to fill the vector. -/
inductive NativeCall where
  | glfwGetRequiredInstanceExtensions
  | vkEnumerateInstanceExtensionProperties (withData : Bool)
  | vkEnumerateInstanceLayerProperties (withData : Bool)
  | vkCreateInstance (createInfo : VkInstanceCreateInfo)
  | vkGetInstanceProcAddr (inst : Nat) (name : String)
  | vkCreateDebugUtilsMessengerEXT (inst : Nat)
      (createInfo : VkDebugUtilsMessengerCreateInfoEXT)
  | vkEnumeratePhysicalDevices (inst : Nat) (withData : Bool)
  | vkGetPhysicalDeviceProperties (device : Nat)
  | vkGetPhysicalDeviceFeatures (device : Nat)
  | vkGetPhysicalDeviceQueueFamilyProperties (device : Nat) (withData : Bool)
  | vkCreateDevice (physicalDevice : Nat) (createInfo : VkDeviceCreateInfo)
  | vkGetDeviceQueue (device : Nat) (queueFamilyIndex : Nat) (queueIndex : Nat)
  | vkDestroyDevice (device : Nat)
  | vkDestroyInstance (inst : Nat)
deriving DecidableEq

/-! ## The environment and the renderer state -/

/-- What the build and the native libraries answer during one run.
`enableValidationLayers` is the class constant fixed by `NDEBUG`;
`debugCallback` stands for the callback of `VulkanUtilities.h`;
`debugUtilsEntryPoint` is `none` when `vkGetInstanceProcAddr` returns null and
otherwise the result the looked-up function returns.  A creation call stores
its new handle only when it returns `VK_SUCCESS`. -/
structure Env where
  enableValidationLayers : Bool
  debugCallback : Nat
  glfwRequiredInstanceExtensions : List String
  instanceExtensions : List VkExtensionProperties
  instanceLayers : List VkLayerProperties
  createInstanceResult : VkResult
  newInstance : Nat
  debugUtilsEntryPoint : Option VkResult
  newMessenger : Nat
  physicalDevices : List VkPhysicalDevice
  createDeviceResult : VkResult
  newDevice : Nat
  deviceQueue : Nat → Nat → Nat → Nat

structure MainDevice where
  physicalDevice : VkPhysicalDevice
  logicalDevice : Nat
deriving DecidableEq

/-- The data members of `VulkanRenderer` (the member `instance` is
`vkInstance` here), followed by the native calls made so far and the lines
printed so far.  The constructor is defaulted, so a run starts from arbitrary
member values. -/
structure VulkanRenderer where
  mainDevice : MainDevice
  window : Nat
  vkInstance : Nat
  graphicsQueue : Nat
  debugMessenger : Nat
  calls : List NativeCall
  stdout : List String
deriving DecidableEq

/-- Record one native call. -/
def VulkanRenderer.call (s : VulkanRenderer) (c : NativeCall) : VulkanRenderer :=
  { s with calls := s.calls ++ [c] }

inductive Exception where
  | runtime_error (what : String)
deriving DecidableEq

/-- Equality of outcomes (a value or an exception) is decidable. -/
instance {ε α : Type} [DecidableEq ε] [DecidableEq α] : DecidableEq (Except ε α)
  | .ok a, .ok b =>
    if h : a = b then isTrue (by rw [h]) else isFalse (fun hc => h (Except.ok.inj hc))
  | .error a, .error b =>
    if h : a = b then isTrue (by rw [h]) else isFalse (fun hc => h (Except.error.inj hc))
  | .ok _, .error _ => isFalse (fun hc => Except.noConfusion hc)
  | .error _, .ok _ => isFalse (fun hc => Except.noConfusion hc)

/-- `VulkanRenderer::validationLayers`. -/
def validationLayers : List String := ["VK_LAYER_KHRONOS_validation"]

/-! ## The methods of `VulkanRenderer` -/

/-- `VulkanRenderer::getRequiredExtensions`. -/
def getRequiredExtensions (env : Env) (s : VulkanRenderer) :
    List String × VulkanRenderer :=
  let s := s.call .glfwGetRequiredInstanceExtensions
  let extensions := env.glfwRequiredInstanceExtensions
  let extensions :=
    if env.enableValidationLayers then
      extensions ++ [VK_EXT_DEBUG_UTILS_EXTENSION_NAME]
    else extensions
  (extensions, s)

/-- The inner loop of `checkInstanceExtensionSupport`: scan the driver's
extensions for one named `checkExtension`, stopping at the first match. -/
def hasExtensionLoop (checkExtension : String) : List VkExtensionProperties → Bool
  | [] => false
  | extension :: rest =>
    if strcmp checkExtension extension.extensionName = 0 then true
    else hasExtensionLoop checkExtension rest

/-- The outer loop of `checkInstanceExtensionSupport`: return `false` at the
first requested name without a match. -/
def checkExtensionsLoop (extensions : List VkExtensionProperties) : List String → Bool
  | [] => true
  | checkExtension :: rest =>
    if !hasExtensionLoop checkExtension extensions then false
    else checkExtensionsLoop extensions rest

/-- `VulkanRenderer::checkInstanceExtensionSupport`. -/
def checkInstanceExtensionSupport (env : Env) (checkExtensions : List String)
    (s : VulkanRenderer) : Bool × VulkanRenderer :=
  let s := s.call (.vkEnumerateInstanceExtensionProperties false)
  let s := s.call (.vkEnumerateInstanceExtensionProperties true)
  let extensions := env.instanceExtensions
  (checkExtensionsLoop extensions checkExtensions, s)

/-- The inner loop of `checkValidationLayerSupport`. -/
def layerFoundLoop (layerName : String) : List VkLayerProperties → Bool
  | [] => false
  | layerProperties :: rest =>
    if strcmp layerName layerProperties.layerName = 0 then true
    else layerFoundLoop layerName rest

/-- The outer loop of `checkValidationLayerSupport`. -/
def checkLayersLoop (availableLayers : List VkLayerProperties) : List String → Bool
  | [] => true
  | layerName :: rest =>
    if !layerFoundLoop layerName availableLayers then false
    else checkLayersLoop availableLayers rest

/-- `VulkanRenderer::checkValidationLayerSupport`. -/
def checkValidationLayerSupport (env : Env) (s : VulkanRenderer) :
    Bool × VulkanRenderer :=
  let s := s.call (.vkEnumerateInstanceLayerProperties false)
  let s := s.call (.vkEnumerateInstanceLayerProperties true)
  let availableLayers := env.instanceLayers
  (checkLayersLoop availableLayers validationLayers, s)

/-- `VulkanRenderer::populateDebugMessengerCreateInfo`: verbose, warning and
error severities; general, validation and performance message types. -/
def populateDebugMessengerCreateInfo (env : Env) : VkDebugUtilsMessengerCreateInfoEXT :=
  { sType := VK_STRUCTURE_TYPE_DEBUG_UTILS_MESSENGER_CREATE_INFO_EXT
    messageSeverity := 0x1 ||| 0x100 ||| 0x1000
    messageType := 0x1 ||| 0x2 ||| 0x4
    pfnUserCallback := env.debugCallback }

/-- The `VkApplicationInfo` filled in by `createInstance`
(`VK_MAKE_API_VERSION(0, 1, 0, 0)` is `1 <<< 22`, `VK_API_VERSION_1_3` is
`(1 <<< 22) ||| (3 <<< 12)`). -/
def appInfo : VkApplicationInfo :=
  { sType := 0
    pApplicationName := "Vulkan App"
    applicationVersion := 1 <<< 22
    pEngineName := "No Engine"
    engineVersion := 1 <<< 22
    apiVersion := (1 <<< 22) ||| (3 <<< 12) }

/-- The `VkInstanceCreateInfo` that `createInstance` has built when it
reaches `vkCreateInstance`; `sType` keeps its zero initial value. -/
def instanceCreateInfo (env : Env) (instanceExtensions : List String) :
    VkInstanceCreateInfo :=
  if env.enableValidationLayers then
    { sType := 0
      pNext := some (populateDebugMessengerCreateInfo env)
      pApplicationInfo := appInfo
      enabledLayerCount := toUint32 validationLayers.length
      ppEnabledLayerNames := some validationLayers
      enabledExtensionCount := toUint32 instanceExtensions.length
      ppEnabledExtensionNames := instanceExtensions }
  else
    { sType := 0
      pNext := none
      pApplicationInfo := appInfo
      enabledLayerCount := 0
      ppEnabledLayerNames := none
      enabledExtensionCount := toUint32 instanceExtensions.length
      ppEnabledExtensionNames := instanceExtensions }

/-- `VulkanRenderer::createInstance`.  The layer check is the right operand
of `&&`, so it runs only when `enableValidationLayers` is true. -/
def createInstance (env : Env) (s : VulkanRenderer) :
    Except Exception Unit × VulkanRenderer :=
  let r := getRequiredExtensions env s
  let instanceExtensions := r.1
  let c := checkInstanceExtensionSupport env instanceExtensions r.2
  if !c.1 then
    (.error (.runtime_error "VkInstance does not support required extensions"), c.2)
  else
    let l : Bool × VulkanRenderer :=
      if env.enableValidationLayers then checkValidationLayerSupport env c.2
      else (true, c.2)
    if env.enableValidationLayers && !l.1 then
      (.error (.runtime_error "Validation Layers requested but not available!"), l.2)
    else
      let createInfo := instanceCreateInfo env instanceExtensions
      let s := l.2.call (.vkCreateInstance createInfo)
      let result := env.createInstanceResult
      let s := if result = VK_SUCCESS then { s with vkInstance := env.newInstance } else s
      if result ≠ VK_SUCCESS then
        (.error (.runtime_error "Failed to create a Vulkan instance"), s)
      else (.ok (), s)

/-- `VulkanRenderer::createDebugUtilsMessengerEXT`, called with
`pDebugMessenger = &debugMessenger`. -/
def createDebugUtilsMessengerEXT (env : Env) (inst : Nat)
    (pCreateInfo : VkDebugUtilsMessengerCreateInfoEXT) (s : VulkanRenderer) :
    VkResult × VulkanRenderer :=
  let s := s.call (.vkGetInstanceProcAddr inst "vkCreateDebugUtilsMessengerEXT")
  match env.debugUtilsEntryPoint with
  | some result =>
    let s := s.call (.vkCreateDebugUtilsMessengerEXT inst pCreateInfo)
    (result, if result = VK_SUCCESS then { s with debugMessenger := env.newMessenger } else s)
  | none => (VK_ERROR_EXTENSION_NOT_PRESENT, s)

/-- `VulkanRenderer::setupDebugMessenger`. -/
def setupDebugMessenger (env : Env) (s : VulkanRenderer) :
    Except Exception Unit × VulkanRenderer :=
  if !env.enableValidationLayers then (.ok (), s)
  else
    let createInfo := populateDebugMessengerCreateInfo env
    let r := createDebugUtilsMessengerEXT env s.vkInstance createInfo s
    if r.1 ≠ VK_SUCCESS then
      (.error (.runtime_error "Failed to set up debug messenger."), r.2)
    else (.ok (), r.2)

/-- The loop of `getQueueFamilies`, entered with counter `i` and the record
built so far.  The counter is an `int`; it is a mathematical integer here,
which agrees with the source for every family count an `int` can hold. -/
def queueFamiliesLoop :
    List VkQueueFamilyProperties → Int → QueueFamilyIndices → QueueFamilyIndices
  | [], _, indices => indices
  | queueFamily :: rest, i, indices =>
    let indices : QueueFamilyIndices :=
      if queueFamily.queueCount > 0 ∧
          queueFamily.queueFlags &&& VK_QUEUE_GRAPHICS_BIT ≠ 0 then
        { indices with graphicsFamily := i }
      else indices
    if indices.isValid then indices
    else queueFamiliesLoop rest (i + 1) indices

/-- `VulkanRenderer::getQueueFamilies`. -/
def getQueueFamilies (device : VkPhysicalDevice) (s : VulkanRenderer) :
    QueueFamilyIndices × VulkanRenderer :=
  let indices : QueueFamilyIndices := {}
  let s := s.call (.vkGetPhysicalDeviceQueueFamilyProperties device.handle false)
  let s := s.call (.vkGetPhysicalDeviceQueueFamilyProperties device.handle true)
  let queueFamilies := device.queueFamilies
  (queueFamiliesLoop queueFamilies 0 indices, s)

/-- `VulkanRenderer::checkDeviceSuitable`. -/
def checkDeviceSuitable (device : VkPhysicalDevice) (s : VulkanRenderer) :
    Bool × VulkanRenderer :=
  let s := s.call (.vkGetPhysicalDeviceProperties device.handle)
  let s := s.call (.vkGetPhysicalDeviceFeatures device.handle)
  let r := getQueueFamilies device s
  (r.1.isValid, r.2)

/-- The selection loop of `getPhysicalDevice`: the first suitable device is
stored and ends the loop; when the loop runs out nothing is stored. -/
def selectDeviceLoop : List VkPhysicalDevice → VulkanRenderer → VulkanRenderer
  | [], s => s
  | device :: rest, s =>
    let r := checkDeviceSuitable device s
    if r.1 then
      { r.2 with mainDevice := { r.2.mainDevice with physicalDevice := device } }
    else selectDeviceLoop rest r.2

/-- `VulkanRenderer::getPhysicalDevice`. -/
def getPhysicalDevice (env : Env) (s : VulkanRenderer) :
    Except Exception Unit × VulkanRenderer :=
  let s := s.call (.vkEnumeratePhysicalDevices s.vkInstance false)
  let deviceCount := env.physicalDevices.length
  if deviceCount = 0 then
    (.error (.runtime_error "Can't find any GPU that supports vulkan"), s)
  else
    let s := s.call (.vkEnumeratePhysicalDevices s.vkInstance true)
    let devices := env.physicalDevices
    (.ok (), selectDeviceLoop devices s)

/-- `VulkanRenderer::createLogicalDevice`.  The queue create-info carries the
`sType` the source assigns, `VK_STRUCTURE_TYPE_DEVICE_CREATE_INFO`; the `int`
family index is converted to the `uint32_t` field. -/
def createLogicalDevice (env : Env) (s : VulkanRenderer) :
    Except Exception Unit × VulkanRenderer :=
  let r := getQueueFamilies s.mainDevice.physicalDevice s
  let indices := r.1
  let s := r.2
  let queueCreateInfo : VkDeviceQueueCreateInfo :=
    { sType := VK_STRUCTURE_TYPE_DEVICE_CREATE_INFO
      queueFamilyIndex := toUint32 indices.graphicsFamily
      queueCount := 1
      pQueuePriorities := [1] }
  let deviceCreateInfo : VkDeviceCreateInfo :=
    { sType := VK_STRUCTURE_TYPE_DEVICE_CREATE_INFO
      queueCreateInfoCount := 1
      pQueueCreateInfos := [queueCreateInfo]
      enabledExtensionCount := 0
      ppEnabledExtensionNames := none }
  let s := s.call (.vkCreateDevice s.mainDevice.physicalDevice.handle deviceCreateInfo)
  let result := env.createDeviceResult
  let s :=
    if result = VK_SUCCESS then
      { s with mainDevice := { s.mainDevice with logicalDevice := env.newDevice } }
    else s
  if result ≠ VK_SUCCESS then
    (.error (.runtime_error "Could not create the logical device."), s)
  else
    let family := toUint32 indices.graphicsFamily
    let s := s.call (.vkGetDeviceQueue s.mainDevice.logicalDevice family 0)
    (.ok (), { s with graphicsQueue := env.deviceQueue s.mainDevice.logicalDevice family 0 })

/-- The `try` block of `init`: the three steps in sequence, the first
exception ending the block. -/
def initBody (env : Env) (s : VulkanRenderer) : Except Exception Unit × VulkanRenderer :=
  match createInstance env s with
  | (.error e, s) => (.error e, s)
  | (.ok (), s) =>
    match setupDebugMessenger env s with
    | (.error e, s) => (.error e, s)
    | (.ok (), s) => getPhysicalDevice env s

/-- `VulkanRenderer::init`: the `catch` clause handles `std::runtime_error`,
prints its message and returns `EXIT_FAILURE`. -/
def init (env : Env) (windowP : Nat) (s : VulkanRenderer) :
    Except Exception Int × VulkanRenderer :=
  let s := { s with window := windowP }
  match initBody env s with
  | (.error (.runtime_error what), s) =>
    (.ok EXIT_FAILURE, { s with stdout := s.stdout ++ ["ERROR: " ++ what ++ "\n"] })
  | (.ok (), s) => (.ok EXIT_SUCCESS, s)

/-- `VulkanRenderer::clean`. -/
def clean (s : VulkanRenderer) : VulkanRenderer :=
  let s := s.call (.vkDestroyDevice s.mainDevice.logicalDevice)
  let s := s.call (.vkDestroyInstance s.vkInstance)
  s

/-! ## Vocabulary of the properties -/

/-- A queue family with at least one queue and the graphics bit (bit 0 of
`queueFlags`) set. -/
def graphicsCapable (q : VkQueueFamilyProperties) : Prop :=
  0 < q.queueCount ∧ q.queueFlags.testBit 0 = true

instance (q : VkQueueFamilyProperties) : Decidable (graphicsCapable q) := by
  unfold graphicsCapable; infer_instance

/-- A device that has a graphics-capable queue family. -/
def hasGraphicsFamily (d : VkPhysicalDevice) : Prop :=
  ∃ q ∈ d.queueFamilies, graphicsCapable q

instance (d : VkPhysicalDevice) : Decidable (hasGraphicsFamily d) := by
  unfold hasGraphicsFamily; infer_instance

/-- The native calls made between state `s` and a later state `t` of one run
(calls are only ever appended). -/
def callsSince (s t : VulkanRenderer) : List NativeCall :=
  t.calls.drop s.calls.length

/-- What the `catch` clause of `init` leaves behind: the state at the throw
with the error line printed. -/
def reported (what : String) (s : VulkanRenderer) : VulkanRenderer :=
  { s with stdout := s.stdout ++ ["ERROR: " ++ what ++ "\n"] }

/-- One of the three steps of `init` raises, the steps before it having
completed; `s0` is the state in which the `try` block is entered. -/
def initStepRaises (env : Env) (s0 : VulkanRenderer) : Prop :=
  (∃ e s1, createInstance env s0 = (.error e, s1)) ∨
  (∃ s1 e s2, createInstance env s0 = (.ok (), s1) ∧
      setupDebugMessenger env s1 = (.error e, s2)) ∨
  (∃ s1 s2 e s3, createInstance env s0 = (.ok (), s1) ∧
      setupDebugMessenger env s1 = (.ok (), s2) ∧
      getPhysicalDevice env s2 = (.error e, s3))

/-- A resource of the graphics API, by kind and handle. -/
inductive Resource where
  | inst (handle : Nat)
  | messenger (handle : Nat)
  | device (handle : Nat)
deriving DecidableEq

/-- The resource a native call brings into existence in environment `env`:
a creation call creates its resource when the driver answers `VK_SUCCESS`. -/
def createdResource (env : Env) : NativeCall → Option Resource
  | .vkCreateInstance _ =>
    if env.createInstanceResult = VK_SUCCESS then some (.inst env.newInstance) else none
  | .vkCreateDebugUtilsMessengerEXT _ _ =>
    if env.debugUtilsEntryPoint = some VK_SUCCESS then some (.messenger env.newMessenger)
    else none
  | .vkCreateDevice _ _ =>
    if env.createDeviceResult = VK_SUCCESS then some (.device env.newDevice) else none
  | _ => none

/-- The resource a native call destroys. -/
def destroyedResource : NativeCall → Option Resource
  | .vkDestroyDevice device => some (.device device)
  | .vkDestroyInstance inst => some (.inst inst)
  | _ => none

/-- The resources created over a stretch of the trace, in creation order. -/
def created (env : Env) (calls : List NativeCall) : List Resource :=
  calls.filterMap (createdResource env)

/-- The resources destroyed over a stretch of the trace, in order. -/
def destroyed (calls : List NativeCall) : List Resource :=
  calls.filterMap destroyedResource

/-- A `vkCreateDevice` call on the physical device with the given handle. -/
def createsDeviceOn (handle : Nat) : NativeCall → Bool
  | .vkCreateDevice physicalDevice _ => physicalDevice == handle
  | _ => false

/-- The lifecycle as the specification words it, for the run `init` then
`clean` from state `s`: if `init` succeeds then the first resource created is
the instance, a logical device is created on the selected physical device, and
`clean` destroys exactly the created resources, in reverse creation order. -/
def lifecycleAsSpecified (env : Env) (windowP : Nat) (s : VulkanRenderer) : Prop :=
  (init env windowP s).1 = .ok EXIT_SUCCESS →
    (created env (callsSince s (clean (init env windowP s).2))).head? =
        some (.inst (init env windowP s).2.vkInstance) ∧
    (callsSince s (clean (init env windowP s).2)).any
        (createsDeviceOn (init env windowP s).2.mainDevice.physicalDevice.handle) = true ∧
    destroyed (callsSince (init env windowP s).2 (clean (init env windowP s).2)) =
        (created env (callsSince s (clean (init env windowP s).2))).reverse

instance (env : Env) (windowP : Nat) (s : VulkanRenderer) :
    Decidable (lifecycleAsSpecified env windowP s) := by
  unfold lifecycleAsSpecified; infer_instance

/-! ## Sample runs -/

/-- A renderer before `init`, all members zero and nothing called yet. -/
def freshRenderer : VulkanRenderer :=
  { mainDevice := { physicalDevice := { handle := 0, queueFamilies := [] }, logicalDevice := 0 }
    window := 0
    vkInstance := 0
    graphicsQueue := 0
    debugMessenger := 0
    calls := []
    stdout := [] }

/-- A device with a compute-only family and a graphics family without queues. -/
def computeOnlyGpu : VkPhysicalDevice :=
  { handle := 10, queueFamilies := [⟨2, 1⟩, ⟨1, 0⟩] }

/-- A device whose second family (index 1) is the first graphics-capable one. -/
def discreteGpu : VkPhysicalDevice :=
  { handle := 11, queueFamilies := [⟨4, 2⟩, ⟨3, 1⟩, ⟨1, 4⟩] }

/-- A device with a single graphics family. -/
def integratedGpu : VkPhysicalDevice :=
  { handle := 12, queueFamilies := [⟨1, 1⟩] }

/-- A machine where every native call succeeds, built without validation
layers. -/
def plainEnv : Env :=
  { enableValidationLayers := false
    debugCallback := 99
    glfwRequiredInstanceExtensions := ["VK_KHR_surface", "VK_KHR_xcb_surface"]
    instanceExtensions :=
      [⟨"VK_KHR_surface", 25⟩, ⟨"VK_EXT_debug_utils", 2⟩, ⟨"VK_KHR_xcb_surface", 6⟩]
    instanceLayers := [⟨"VK_LAYER_KHRONOS_validation", 1, 1, "Khronos validation"⟩]
    createInstanceResult := VK_SUCCESS
    newInstance := 5
    debugUtilsEntryPoint := some VK_SUCCESS
    newMessenger := 6
    physicalDevices := [computeOnlyGpu, discreteGpu, integratedGpu]
    createDeviceResult := VK_SUCCESS
    newDevice := 7
    deviceQueue := fun _ family index => 100 + 10 * family + index }

/-- The same machine, built with validation layers. -/
def validatingEnv : Env := { plainEnv with enableValidationLayers := true }

/-- A machine whose only device has no graphics-capable queue family. -/
def noGraphicsEnv : Env := { plainEnv with physicalDevices := [computeOnlyGpu] }

/-! ## Lemmas on the loops -/

theorem strcmpChars_eq_zero_iff (cs ds : List Char) :
    strcmpChars cs ds = 0 ↔ cs = ds := by
  induction cs generalizing ds with
  | nil => cases ds <;> simp [strcmpChars]
  | cons c cs ih =>
    cases ds with
    | nil => simp [strcmpChars]
    | cons d ds =>
      by_cases h : c = d
      · simp [strcmpChars, h, ih]
      · by_cases h2 : c.toNat < d.toNat <;> simp [strcmpChars, h, h2]

theorem strcmp_eq_zero_iff (a b : String) : strcmp a b = 0 ↔ a = b := by
  unfold strcmp
  rw [strcmpChars_eq_zero_iff]
  constructor
  · intro h; exact String.ext h
  · intro h; rw [h]

theorem hasExtensionLoop_iff (name : String) (exts : List VkExtensionProperties) :
    hasExtensionLoop name exts = true ↔ ∃ e ∈ exts, name = e.extensionName := by
  induction exts with
  | nil => simp [hasExtensionLoop]
  | cons e es ih =>
    by_cases h : name = e.extensionName
    · simp [hasExtensionLoop, strcmp_eq_zero_iff, h]
    · simp [hasExtensionLoop, strcmp_eq_zero_iff, h, ih]

theorem checkExtensionsLoop_iff (exts : List VkExtensionProperties) (req : List String) :
    checkExtensionsLoop exts req = true ↔
      ∀ n ∈ req, ∃ e ∈ exts, n = e.extensionName := by
  induction req with
  | nil => simp [checkExtensionsLoop]
  | cons n ns ih =>
    by_cases h : hasExtensionLoop n exts = true
    · have h2 := (hasExtensionLoop_iff n exts).1 h
      simp [checkExtensionsLoop, h, ih, h2]
    · have h2 : ¬ ∃ e ∈ exts, n = e.extensionName := fun hx =>
        h ((hasExtensionLoop_iff n exts).2 hx)
      simp only [Bool.not_eq_true] at h
      have h3 : ¬ ∀ m ∈ n :: ns, ∃ e ∈ exts, m = e.extensionName := fun hx =>
        h2 (hx n (List.mem_cons_self n ns))
      simp only [checkExtensionsLoop, h, Bool.not_false, if_true, h3]
      simp

theorem layerFoundLoop_iff (name : String) (layers : List VkLayerProperties) :
    layerFoundLoop name layers = true ↔ ∃ p ∈ layers, name = p.layerName := by
  induction layers with
  | nil => simp [layerFoundLoop]
  | cons e es ih =>
    by_cases h : name = e.layerName
    · simp [layerFoundLoop, strcmp_eq_zero_iff, h]
    · simp [layerFoundLoop, strcmp_eq_zero_iff, h, ih]

theorem checkLayersLoop_iff (layers : List VkLayerProperties) (req : List String) :
    checkLayersLoop layers req = true ↔
      ∀ n ∈ req, ∃ p ∈ layers, n = p.layerName := by
  induction req with
  | nil => simp [checkLayersLoop]
  | cons n ns ih =>
    by_cases h : layerFoundLoop n layers = true
    · have h2 := (layerFoundLoop_iff n layers).1 h
      simp [checkLayersLoop, h, ih, h2]
    · have h2 : ¬ ∃ p ∈ layers, n = p.layerName := fun hx =>
        h ((layerFoundLoop_iff n layers).2 hx)
      simp only [Bool.not_eq_true] at h
      have h3 : ¬ ∀ m ∈ n :: ns, ∃ p ∈ layers, m = p.layerName := fun hx =>
        h2 (hx n (List.mem_cons_self n ns))
      simp only [checkLayersLoop, h, Bool.not_false, if_true, h3]
      simp

/-- The test of the source, `queueCount > 0 && queueFlags & VK_QUEUE_GRAPHICS_BIT`,
holds exactly for the graphics-capable families. -/
theorem graphics_test_iff (q : VkQueueFamilyProperties) :
    (q.queueCount > 0 ∧ q.queueFlags &&& VK_QUEUE_GRAPHICS_BIT ≠ 0) ↔ graphicsCapable q := by
  unfold graphicsCapable VK_QUEUE_GRAPHICS_BIT
  rw [Nat.and_one_is_mod, Nat.testBit_zero]
  have : q.queueFlags % 2 = 0 ∨ q.queueFlags % 2 = 1 := by omega
  rcases this with h | h <;> simp [h]

/-- A list with an element satisfying `p` splits at the first such element. -/
theorem exists_first_split {α : Type} (p : α → Prop) [DecidablePred p] (l : List α)
    (h : ∃ x ∈ l, p x) :
    ∃ pre x post, l = pre ++ x :: post ∧ p x ∧ ∀ y ∈ pre, ¬ p y := by
  induction l with
  | nil => simp at h
  | cons a as ih =>
    by_cases ha : p a
    · exact ⟨[], a, as, rfl, ha, by simp⟩
    · have h2 : ∃ x ∈ as, p x := by
        obtain ⟨x, hx, hpx⟩ := h
        rcases List.mem_cons.1 hx with rfl | hx
        · exact absurd hpx ha
        · exact ⟨x, hx, hpx⟩
      obtain ⟨pre, x, post, hl, hpx, hpre⟩ := ih h2
      refine ⟨a :: pre, x, post, by simp [hl], hpx, ?_⟩
      intro y hy
      rcases List.mem_cons.1 hy with rfl | hy
      · exact ha
      · exact hpre y hy

/-- One iteration of the loop of `getQueueFamilies`. -/
theorem queueFamiliesLoop_cons (q : VkQueueFamilyProperties)
    (rest : List VkQueueFamilyProperties) (i : Int) (ind : QueueFamilyIndices) :
    queueFamiliesLoop (q :: rest) i ind =
      if (if q.queueCount > 0 ∧ q.queueFlags &&& VK_QUEUE_GRAPHICS_BIT ≠ 0 then
            ({ graphicsFamily := i } : QueueFamilyIndices) else ind).isValid = true then
        (if q.queueCount > 0 ∧ q.queueFlags &&& VK_QUEUE_GRAPHICS_BIT ≠ 0 then
            ({ graphicsFamily := i } : QueueFamilyIndices) else ind)
      else queueFamiliesLoop rest (i + 1)
        (if q.queueCount > 0 ∧ q.queueFlags &&& VK_QUEUE_GRAPHICS_BIT ≠ 0 then
            ({ graphicsFamily := i } : QueueFamilyIndices) else ind) := rfl

/-- Without a graphics-capable family the loop returns the record it was
entered with. -/
theorem queueFamiliesLoop_none (qs : List VkQueueFamilyProperties) (i : Int)
    (ind : QueueFamilyIndices) (hind : ind.isValid = false)
    (h : ∀ q ∈ qs, ¬ graphicsCapable q) : queueFamiliesLoop qs i ind = ind := by
  induction qs generalizing i with
  | nil => rfl
  | cons q qs ih =>
    have hq : ¬ graphicsCapable q := h q (List.mem_cons_self q qs)
    have hq2 := (not_congr (graphics_test_iff q)).2 hq
    rw [queueFamiliesLoop_cons, if_neg hq2, hind, if_neg (by simp)]
    exact ih (i + 1) (fun x hx => h x (List.mem_cons_of_mem q hx))

/-- The loop stops at the first graphics-capable family and records the
counter value reached there. -/
theorem queueFamiliesLoop_first (pre : List VkQueueFamilyProperties)
    (q : VkQueueFamilyProperties) (post : List VkQueueFamilyProperties) (i : Int)
    (ind : QueueFamilyIndices) (hind : ind.isValid = false) (hi : 0 ≤ i)
    (hpre : ∀ p ∈ pre, ¬ graphicsCapable p) (hq : graphicsCapable q) :
    queueFamiliesLoop (pre ++ q :: post) i ind = { graphicsFamily := i + pre.length } := by
  induction pre generalizing i with
  | nil =>
    have hq2 := (graphics_test_iff q).2 hq
    have hv : QueueFamilyIndices.isValid { graphicsFamily := i } = true := by
      simp [QueueFamilyIndices.isValid, hi]
    rw [List.nil_append, queueFamiliesLoop_cons, if_pos hq2, if_pos hv]
    simp
  | cons p pre ih =>
    have hp : ¬ graphicsCapable p := hpre p (List.mem_cons_self p pre)
    have hp2 := (not_congr (graphics_test_iff p)).2 hp
    rw [List.cons_append, queueFamiliesLoop_cons, if_neg hp2, hind, if_neg (by simp)]
    rw [ih (i + 1) (by omega) (fun x hx => hpre x (List.mem_cons_of_mem p hx))]
    simp only [List.length_cons, Nat.cast_add, Nat.cast_one]
    congr 1
    omega

theorem default_indices_invalid : QueueFamilyIndices.isValid {} = false := by decide

/-- The record `getQueueFamilies` returns depends on the device only. -/
theorem getQueueFamilies_fst (device : VkPhysicalDevice) (s : VulkanRenderer) :
    (getQueueFamilies device s).1 = queueFamiliesLoop device.queueFamilies 0 {} := rfl

theorem getQueueFamilies_valid_iff (device : VkPhysicalDevice) (s : VulkanRenderer) :
    (getQueueFamilies device s).1.isValid = true ↔ hasGraphicsFamily device := by
  rw [getQueueFamilies_fst]
  constructor
  · intro hv
    by_contra hno
    have hnone : ∀ q ∈ device.queueFamilies, ¬ graphicsCapable q := fun q hq hc =>
      hno ⟨q, hq, hc⟩
    rw [queueFamiliesLoop_none _ _ _ default_indices_invalid hnone] at hv
    simp [default_indices_invalid] at hv
  · intro h
    obtain ⟨pre, q, post, hl, hq, hpre⟩ := exists_first_split graphicsCapable _ h
    rw [hl, queueFamiliesLoop_first pre q post 0 {} default_indices_invalid (le_refl 0) hpre hq]
    simp [QueueFamilyIndices.isValid]

theorem checkDeviceSuitable_iff (device : VkPhysicalDevice) (s : VulkanRenderer) :
    (checkDeviceSuitable device s).1 = true ↔ hasGraphicsFamily device := by
  have h : (checkDeviceSuitable device s).1 =
      (getQueueFamilies device
        ((s.call (.vkGetPhysicalDeviceProperties device.handle)).call
          (.vkGetPhysicalDeviceFeatures device.handle))).1.isValid := rfl
  rw [h, getQueueFamilies_valid_iff]

/-- A valid record returned by `getQueueFamilies` holds the index of the
first graphics-capable family. -/
theorem getQueueFamilies_first_index (device : VkPhysicalDevice) (s : VulkanRenderer) :
    (getQueueFamilies device s).1.isValid = true →
      ∃ k : Nat, (getQueueFamilies device s).1.graphicsFamily = (k : Int) ∧
        k < device.queueFamilies.length ∧
        (∃ q, device.queueFamilies[k]? = some q ∧ graphicsCapable q) ∧
        ∀ j, j < k → ∀ q, device.queueFamilies[j]? = some q → ¬ graphicsCapable q := by
  intro hv
  have h : hasGraphicsFamily device := (getQueueFamilies_valid_iff device s).1 hv
  obtain ⟨pre, q, post, hl, hq, hpre⟩ := exists_first_split graphicsCapable _ h
  refine ⟨pre.length, ?_, ?_, ⟨q, ?_, hq⟩, ?_⟩
  · rw [getQueueFamilies_fst, hl,
      queueFamiliesLoop_first pre q post 0 {} default_indices_invalid (le_refl 0) hpre hq]
    simp
  · rw [hl]; simp
  · rw [hl, List.getElem?_append_right (le_refl _)]; simp
  · intro j hj x hx
    rw [hl, List.getElem?_append_left hj] at hx
    exact hpre x (List.getElem?_mem hx)

/-- One iteration of the selection loop of `getPhysicalDevice`. -/
theorem selectDeviceLoop_cons (device : VkPhysicalDevice) (rest : List VkPhysicalDevice)
    (s : VulkanRenderer) :
    selectDeviceLoop (device :: rest) s =
      if (checkDeviceSuitable device s).1 = true then
        { (checkDeviceSuitable device s).2 with
          mainDevice :=
            { (checkDeviceSuitable device s).2.mainDevice with physicalDevice := device } }
      else selectDeviceLoop rest (checkDeviceSuitable device s).2 := rfl

/-- The selection loop stores the first device with a graphics family. -/
theorem selectDeviceLoop_first (pre : List VkPhysicalDevice) (d : VkPhysicalDevice)
    (post : List VkPhysicalDevice) (s : VulkanRenderer)
    (hpre : ∀ x ∈ pre, ¬ hasGraphicsFamily x) (hd : hasGraphicsFamily d) :
    (selectDeviceLoop (pre ++ d :: post) s).mainDevice.physicalDevice = d := by
  induction pre generalizing s with
  | nil =>
    have h := (checkDeviceSuitable_iff d s).2 hd
    rw [List.nil_append, selectDeviceLoop_cons, if_pos h]
  | cons x pre ih =>
    have hx : ¬ (checkDeviceSuitable x s).1 = true := fun h =>
      hpre x (List.mem_cons_self x pre) ((checkDeviceSuitable_iff x s).1 h)
    rw [List.cons_append, selectDeviceLoop_cons, if_neg hx]
    exact ih _ (fun y hy => hpre y (List.mem_cons_of_mem x hy))

/-- When no device has a graphics family the selection loop stores nothing. -/
theorem selectDeviceLoop_none (devices : List VkPhysicalDevice) (s : VulkanRenderer)
    (h : ∀ x ∈ devices, ¬ hasGraphicsFamily x) :
    (selectDeviceLoop devices s).mainDevice = s.mainDevice := by
  induction devices generalizing s with
  | nil => rfl
  | cons x rest ih =>
    have hx : ¬ (checkDeviceSuitable x s).1 = true := fun hc =>
      h x (List.mem_cons_self x rest) ((checkDeviceSuitable_iff x s).1 hc)
    rw [selectDeviceLoop_cons, if_neg hx, ih _ (fun y hy => h y (List.mem_cons_of_mem x hy))]
    rfl

/-- With no device enumerated `getPhysicalDevice` raises after the count
query. -/
theorem getPhysicalDevice_no_devices (env : Env) (s : VulkanRenderer)
    (h : env.physicalDevices = []) :
    getPhysicalDevice env s =
      (.error (.runtime_error "Can't find any GPU that supports vulkan"),
        s.call (.vkEnumeratePhysicalDevices s.vkInstance false)) := by
  simp [getPhysicalDevice, h]

/-- With devices enumerated but none of them suitable, `getPhysicalDevice`
raises nothing and stores nothing in `mainDevice`. -/
theorem getPhysicalDevice_none_suitable (env : Env) (s : VulkanRenderer)
    (hne : env.physicalDevices ≠ [])
    (h : ∀ d ∈ env.physicalDevices, ¬ hasGraphicsFamily d) :
    (getPhysicalDevice env s).1 = .ok () ∧
    (getPhysicalDevice env s).2.mainDevice = s.mainDevice := by
  have h0 : ¬ env.physicalDevices.length = 0 := fun hl => hne (List.length_eq_zero.1 hl)
  simp only [getPhysicalDevice, h0, if_false, true_and]
  rw [selectDeviceLoop_none _ _ h]
  rfl

/-! ## Lemmas on `createInstance` and the call trace -/

theorem callsSince_of_append (s t : VulkanRenderer) (new : List NativeCall)
    (h : t.calls = s.calls ++ new) : callsSince s t = new := by
  simp [callsSince, h]

/-- The list `getRequiredExtensions` returns. -/
theorem getRequiredExtensions_fst (env : Env) (s : VulkanRenderer) :
    (getRequiredExtensions env s).1 =
      env.glfwRequiredInstanceExtensions ++
        (if env.enableValidationLayers = true then [VK_EXT_DEBUG_UTILS_EXTENSION_NAME]
         else []) := by
  by_cases h : env.enableValidationLayers = true <;> simp [getRequiredExtensions, h]

/-- The state in which `createInstance` throws for an unsupported extension:
the three queries made so far are the only calls added. -/
theorem createInstance_unsupported (env : Env) (s : VulkanRenderer)
    (h : checkExtensionsLoop env.instanceExtensions (getRequiredExtensions env s).1 = false) :
    createInstance env s =
      (.error (.runtime_error "VkInstance does not support required extensions"),
        { s with calls := s.calls ++ [.glfwGetRequiredInstanceExtensions,
            .vkEnumerateInstanceExtensionProperties false,
            .vkEnumerateInstanceExtensionProperties true] }) := by
  have hc : (checkInstanceExtensionSupport env (getRequiredExtensions env s).1
      (getRequiredExtensions env s).2).1 = false := h
  simp only [createInstance, hc]
  simp [checkInstanceExtensionSupport, getRequiredExtensions, VulkanRenderer.call]

theorem toUint32_natCast (n : Nat) : toUint32 (n : Int) = n % 4294967296 := by
  unfold toUint32
  omega

theorem getRequiredExtensions_snd (env : Env) (s : VulkanRenderer) :
    (getRequiredExtensions env s).2 =
      { s with calls := s.calls ++ [.glfwGetRequiredInstanceExtensions] } := rfl

theorem checkInstanceExtensionSupport_fst (env : Env) (req : List String)
    (s : VulkanRenderer) :
    (checkInstanceExtensionSupport env req s).1 =
      checkExtensionsLoop env.instanceExtensions req := rfl

theorem checkInstanceExtensionSupport_snd (env : Env) (req : List String)
    (s : VulkanRenderer) :
    (checkInstanceExtensionSupport env req s).2 =
      { s with calls := s.calls ++ [.vkEnumerateInstanceExtensionProperties false] ++
          [.vkEnumerateInstanceExtensionProperties true] } := rfl

theorem checkValidationLayerSupport_fst (env : Env) (s : VulkanRenderer) :
    (checkValidationLayerSupport env s).1 =
      checkLayersLoop env.instanceLayers validationLayers := rfl

theorem checkValidationLayerSupport_snd (env : Env) (s : VulkanRenderer) :
    (checkValidationLayerSupport env s).2 =
      { s with calls := s.calls ++ [.vkEnumerateInstanceLayerProperties false] ++
          [.vkEnumerateInstanceLayerProperties true] } := rfl

/-- The calls `createInstance` adds: the extension queries; then, when the
extensions are supported, the layer queries of a validating build; then, unless
a validation layer is missing, `vkCreateInstance` with the create-info built
from the required extensions. -/
theorem createInstance_trace (env : Env) (s : VulkanRenderer) :
    (createInstance env s).2.calls =
      s.calls ++ [.glfwGetRequiredInstanceExtensions,
        .vkEnumerateInstanceExtensionProperties false,
        .vkEnumerateInstanceExtensionProperties true] ++
      (if checkExtensionsLoop env.instanceExtensions (getRequiredExtensions env s).1 = true then
        (if env.enableValidationLayers = true then
          [.vkEnumerateInstanceLayerProperties false,
            .vkEnumerateInstanceLayerProperties true] else []) ++
        (if env.enableValidationLayers = true ∧
            checkLayersLoop env.instanceLayers validationLayers = false then []
         else [.vkCreateInstance
            (instanceCreateInfo env (getRequiredExtensions env s).1)])
       else []) := by
  by_cases hx : checkExtensionsLoop env.instanceExtensions (getRequiredExtensions env s).1 = true
  · by_cases hv : env.enableValidationLayers = true
    · by_cases hl : checkLayersLoop env.instanceLayers validationLayers = true
      · by_cases hr : env.createInstanceResult = VK_SUCCESS <;>
          simp [createInstance, checkInstanceExtensionSupport_fst,
            checkInstanceExtensionSupport_snd, checkValidationLayerSupport_fst,
            checkValidationLayerSupport_snd, getRequiredExtensions_snd, hx, hv, hl, hr,
            VulkanRenderer.call]
      · simp only [Bool.not_eq_true] at hl
        simp [createInstance, checkInstanceExtensionSupport_fst,
          checkInstanceExtensionSupport_snd, checkValidationLayerSupport_fst,
          checkValidationLayerSupport_snd, getRequiredExtensions_snd, hx, hv, hl,
          VulkanRenderer.call]
    · simp only [Bool.not_eq_true] at hv
      by_cases hr : env.createInstanceResult = VK_SUCCESS <;>
        simp [createInstance, checkInstanceExtensionSupport_fst,
          checkInstanceExtensionSupport_snd, getRequiredExtensions_snd, hx, hv, hr,
          VulkanRenderer.call]
  · simp only [Bool.not_eq_true] at hx
    rw [createInstance_unsupported env s hx]
    simp [hx]

/-- `createInstance` raises when a validating build misses a layer. -/
theorem createInstance_layers_missing (env : Env) (s : VulkanRenderer)
    (hv : env.enableValidationLayers = true)
    (hl : checkLayersLoop env.instanceLayers validationLayers = false) :
    ∃ what, (createInstance env s).1 = .error (.runtime_error what) := by
  by_cases hx : checkExtensionsLoop env.instanceExtensions (getRequiredExtensions env s).1 = true
  · exact ⟨"Validation Layers requested but not available!", by
      simp [createInstance, checkInstanceExtensionSupport_fst,
        checkValidationLayerSupport_fst, hx, hv, hl]⟩
  · simp only [Bool.not_eq_true] at hx
    exact ⟨"VkInstance does not support required extensions", by
      simp [createInstance, checkInstanceExtensionSupport_fst, hx]⟩

/-- A successful `createInstance` has had `VK_SUCCESS` from the driver and
has stored the new instance handle, no other member changing. -/
theorem createInstance_ok (env : Env) (s s1 : VulkanRenderer)
    (h : createInstance env s = (.ok (), s1)) :
    env.createInstanceResult = VK_SUCCESS ∧
    checkExtensionsLoop env.instanceExtensions (getRequiredExtensions env s).1 = true ∧
    (env.enableValidationLayers = true →
      checkLayersLoop env.instanceLayers validationLayers = true) ∧
    s1 = { s with vkInstance := env.newInstance, calls := (createInstance env s).2.calls } := by
  by_cases hx : checkExtensionsLoop env.instanceExtensions (getRequiredExtensions env s).1 = true
  · by_cases hv : env.enableValidationLayers = true
    · by_cases hl : checkLayersLoop env.instanceLayers validationLayers = true
      · by_cases hr : env.createInstanceResult = VK_SUCCESS
        · refine ⟨hr, hx, fun _ => hl, ?_⟩
          rw [h]
          simp [createInstance, checkInstanceExtensionSupport_fst,
            checkInstanceExtensionSupport_snd, checkValidationLayerSupport_fst,
            checkValidationLayerSupport_snd, getRequiredExtensions_snd, hx, hv, hl, hr,
            VulkanRenderer.call] at h
          rw [← h]
        · simp [createInstance, checkInstanceExtensionSupport_fst,
            checkValidationLayerSupport_fst, hx, hv, hl, hr] at h
      · simp only [Bool.not_eq_true] at hl
        simp [createInstance, checkInstanceExtensionSupport_fst,
          checkValidationLayerSupport_fst, hx, hv, hl] at h
    · simp only [Bool.not_eq_true] at hv
      by_cases hr : env.createInstanceResult = VK_SUCCESS
      · refine ⟨hr, hx, fun hv2 => absurd (hv.symm.trans hv2) (by decide), ?_⟩
        rw [h]
        simp [createInstance, checkInstanceExtensionSupport_fst,
          checkInstanceExtensionSupport_snd, getRequiredExtensions_snd, hx, hv, hr,
          VulkanRenderer.call] at h
        rw [← h]
      · simp [createInstance, checkInstanceExtensionSupport_fst, hx, hv, hr] at h
  · simp only [Bool.not_eq_true] at hx
    simp [createInstance, checkInstanceExtensionSupport_fst, hx] at h

/-- The extension and layer fields of the create-info `createInstance` builds. -/
theorem instanceCreateInfo_fields (env : Env) (l : List String) :
    (instanceCreateInfo env l).ppEnabledExtensionNames = l ∧
    (instanceCreateInfo env l).enabledExtensionCount = l.length % 4294967296 ∧
    (env.enableValidationLayers = true →
      (instanceCreateInfo env l).ppEnabledLayerNames = some validationLayers ∧
      (instanceCreateInfo env l).enabledLayerCount = validationLayers.length) ∧
    (env.enableValidationLayers = false →
      (instanceCreateInfo env l).ppEnabledLayerNames = none ∧
      (instanceCreateInfo env l).enabledLayerCount = 0) := by
  have h1 : toUint32 ((validationLayers.length : Nat) : Int) = validationLayers.length := by
    decide
  by_cases hv : env.enableValidationLayers = true
  · simp only [instanceCreateInfo, hv, if_true, toUint32_natCast, h1]
    simp
  · simp only [Bool.not_eq_true] at hv
    simp only [instanceCreateInfo, hv, toUint32_natCast]
    simp

/-! ## Lemmas on created and destroyed resources -/

theorem created_append (env : Env) (a b : List NativeCall) :
    created env (a ++ b) = created env a ++ created env b := by
  simp [created, List.filterMap_append]

/-- A successful `createInstance` adds calls that create the instance and
nothing else, and stores its handle. -/
theorem createInstance_ok_created (env : Env) (s s1 : VulkanRenderer)
    (h : createInstance env s = (.ok (), s1)) :
    ∃ new, s1.calls = s.calls ++ new ∧ created env new = [.inst env.newInstance] ∧
      s1.vkInstance = env.newInstance := by
  obtain ⟨hr, hx, hl, hs1⟩ := createInstance_ok env s s1 h
  have ht := createInstance_trace env s
  rw [List.append_assoc] at ht
  refine ⟨_, by rw [hs1]; exact ht, ?_, by rw [hs1]⟩
  by_cases hv : env.enableValidationLayers = true
  · simp [created, createdResource, hx, hv, hl hv, hr]
  · simp only [Bool.not_eq_true] at hv
    simp [created, createdResource, hx, hv, hr]

/-- A successful `setupDebugMessenger` creates the messenger exactly in a
validating build, and leaves the instance handle alone. -/
theorem setupDebugMessenger_ok_created (env : Env) (s1 s2 : VulkanRenderer)
    (h : setupDebugMessenger env s1 = (.ok (), s2)) :
    ∃ new, s2.calls = s1.calls ++ new ∧
      created env new =
        (if env.enableValidationLayers = true then [.messenger env.newMessenger] else []) ∧
      s2.vkInstance = s1.vkInstance ∧
      (env.enableValidationLayers = true → s2.debugMessenger = env.newMessenger) := by
  by_cases hv : env.enableValidationLayers = true
  · cases hp : env.debugUtilsEntryPoint with
    | none =>
      simp [setupDebugMessenger, createDebugUtilsMessengerEXT, hv, hp,
        VK_ERROR_EXTENSION_NOT_PRESENT, VK_SUCCESS] at h
    | some r =>
      by_cases hr : r = VK_SUCCESS
      · subst hr
        simp [setupDebugMessenger, createDebugUtilsMessengerEXT, hv, hp,
          VulkanRenderer.call] at h
        subst h
        refine ⟨[.vkGetInstanceProcAddr s1.vkInstance "vkCreateDebugUtilsMessengerEXT",
          .vkCreateDebugUtilsMessengerEXT s1.vkInstance (populateDebugMessengerCreateInfo env)],
          by simp, ?_, rfl, fun _ => rfl⟩
        simp [created, createdResource, hv, hp]
      · simp [setupDebugMessenger, createDebugUtilsMessengerEXT, hv, hp, hr] at h
  · simp only [Bool.not_eq_true] at hv
    simp [setupDebugMessenger, hv] at h
    subst h
    exact ⟨[], by simp, by simp [created, hv], rfl, fun hv2 => absurd (hv.symm.trans hv2) (by decide)⟩

/-- The selection loop only queries devices: it creates nothing and leaves
the instance and messenger handles alone. -/
theorem selectDeviceLoop_created (env : Env) (devices : List VkPhysicalDevice)
    (s : VulkanRenderer) :
    ∃ new, (selectDeviceLoop devices s).calls = s.calls ++ new ∧ created env new = [] ∧
      (selectDeviceLoop devices s).vkInstance = s.vkInstance ∧
      (selectDeviceLoop devices s).debugMessenger = s.debugMessenger := by
  induction devices generalizing s with
  | nil => exact ⟨[], by simp [selectDeviceLoop], rfl, rfl, rfl⟩
  | cons d rest ih =>
    have hc : (checkDeviceSuitable d s).2.calls = s.calls ++
        [.vkGetPhysicalDeviceProperties d.handle, .vkGetPhysicalDeviceFeatures d.handle,
          .vkGetPhysicalDeviceQueueFamilyProperties d.handle false,
          .vkGetPhysicalDeviceQueueFamilyProperties d.handle true] := by
      simp [checkDeviceSuitable, getQueueFamilies, VulkanRenderer.call]
    have hi : (checkDeviceSuitable d s).2.vkInstance = s.vkInstance := rfl
    have hm : (checkDeviceSuitable d s).2.debugMessenger = s.debugMessenger := rfl
    rw [selectDeviceLoop_cons]
    by_cases hd : (checkDeviceSuitable d s).1 = true
    · rw [if_pos hd]
      exact ⟨_, hc, by simp [created, createdResource], hi, hm⟩
    · rw [if_neg hd]
      obtain ⟨new, hnew, hcr, hi2, hm2⟩ := ih (checkDeviceSuitable d s).2
      refine ⟨_, by rw [hnew, hc, List.append_assoc], ?_, by rw [hi2, hi], by rw [hm2, hm]⟩
      rw [created_append, hcr]
      simp [created, createdResource]

/-- A successful `getPhysicalDevice` creates nothing. -/
theorem getPhysicalDevice_ok_created (env : Env) (s2 s3 : VulkanRenderer)
    (h : getPhysicalDevice env s2 = (.ok (), s3)) :
    ∃ new, s3.calls = s2.calls ++ new ∧ created env new = [] ∧
      s3.vkInstance = s2.vkInstance ∧ s3.debugMessenger = s2.debugMessenger := by
  by_cases h0 : env.physicalDevices.length = 0
  · simp [getPhysicalDevice, h0] at h
  · simp only [getPhysicalDevice, h0, if_false, Prod.mk.injEq, true_and] at h
    subst h
    obtain ⟨new, hnew, hcr, hi, hm⟩ := selectDeviceLoop_created env env.physicalDevices
      ((s2.call (.vkEnumeratePhysicalDevices s2.vkInstance false)).call
        (.vkEnumeratePhysicalDevices s2.vkInstance true))
    refine ⟨[.vkEnumeratePhysicalDevices s2.vkInstance false,
      .vkEnumeratePhysicalDevices s2.vkInstance true] ++ new, ?_, ?_, ?_, ?_⟩
    · rw [show (s2.call (NativeCall.vkEnumeratePhysicalDevices s2.vkInstance false)).vkInstance
        = s2.vkInstance from rfl]
      rw [hnew]
      simp [VulkanRenderer.call]
    · rw [created_append, hcr]
      simp [created, createdResource]
    · rw [show (s2.call (NativeCall.vkEnumeratePhysicalDevices s2.vkInstance false)).vkInstance
        = s2.vkInstance from rfl]
      rw [hi]; rfl
    · rw [show (s2.call (NativeCall.vkEnumeratePhysicalDevices s2.vkInstance false)).vkInstance
        = s2.vkInstance from rfl]
      rw [hm]; rfl

/-- A successful `init` has run its three steps to completion, one after the
other. -/
theorem init_ok_steps (env : Env) (windowP : Nat) (s : VulkanRenderer)
    (h : (init env windowP s).1 = .ok EXIT_SUCCESS) :
    ∃ s1 s2 s3, createInstance env { s with window := windowP } = (.ok (), s1) ∧
      setupDebugMessenger env s1 = (.ok (), s2) ∧
      getPhysicalDevice env s2 = (.ok (), s3) ∧
      (init env windowP s).2 = s3 := by
  have hne : EXIT_FAILURE ≠ EXIT_SUCCESS := by decide
  rcases h1 : createInstance env { s with window := windowP } with ⟨r1, s1⟩
  cases r1 with
  | error e =>
    cases e with
    | runtime_error what => simp [init, initBody, h1, hne] at h
  | ok u =>
    cases u
    rcases h2 : setupDebugMessenger env s1 with ⟨r2, s2⟩
    cases r2 with
    | error e =>
      cases e with
      | runtime_error what => simp [init, initBody, h1, h2, hne] at h
    | ok u =>
      cases u
      rcases h3 : getPhysicalDevice env s2 with ⟨r3, s3⟩
      cases r3 with
      | error e =>
        cases e with
        | runtime_error what => simp [init, initBody, h1, h2, h3, hne] at h
      | ok u =>
        cases u
        exact ⟨s1, s2, s3, rfl, h2, h3, by simp [init, initBody, h1, h2, h3]⟩

/-- In every run where `init` succeeds and `clean` follows, the resources
created are the instance and, in a validating build, the debug messenger,
while `clean` destroys `mainDevice.logicalDevice` and the instance. -/
theorem created_destroyed_of_init_clean (env : Env) (windowP : Nat) (s : VulkanRenderer)
    (h : (init env windowP s).1 = .ok EXIT_SUCCESS) :
    created env (callsSince s (clean (init env windowP s).2)) =
      .inst env.newInstance ::
        (if env.enableValidationLayers = true then [.messenger env.newMessenger] else []) ∧
    destroyed (callsSince (init env windowP s).2 (clean (init env windowP s).2)) =
      [.device (init env windowP s).2.mainDevice.logicalDevice, .inst env.newInstance] := by
  obtain ⟨s1, s2, s3, h1, h2, h3, hs3⟩ := init_ok_steps env windowP s h
  rw [hs3]
  obtain ⟨n1, hn1, hc1, hi1⟩ := createInstance_ok_created env _ s1 h1
  obtain ⟨n2, hn2, hc2, hi2, _⟩ := setupDebugMessenger_ok_created env s1 s2 h2
  obtain ⟨n3, hn3, hc3, hi3, _⟩ := getPhysicalDevice_ok_created env s2 s3 h3
  have hinst : s3.vkInstance = env.newInstance := by rw [hi3, hi2, hi1]
  have hclean : (clean s3).calls = s3.calls ++
      [.vkDestroyDevice s3.mainDevice.logicalDevice, .vkDestroyInstance s3.vkInstance] := by
    simp [clean, VulkanRenderer.call]
  have hall : (clean s3).calls = s.calls ++ (n1 ++ (n2 ++ (n3 ++
      [.vkDestroyDevice s3.mainDevice.logicalDevice, .vkDestroyInstance s3.vkInstance]))) := by
    rw [hclean, hn3, hn2, hn1]
    simp
  rw [callsSince_of_append s (clean s3) _ hall, callsSince_of_append s3 (clean s3) _ hclean]
  refine ⟨?_, ?_⟩
  · rw [created_append, created_append, created_append, hc1, hc2, hc3]
    by_cases hv : env.enableValidationLayers = true
    · simp [created, createdResource, hv]
    · simp only [Bool.not_eq_true] at hv
      simp [created, createdResource, hv]
  · simp [destroyed, destroyedResource, hinst]

/-- The lifecycle as specified holds of no run in which `init` succeeds: what
`clean` destroys is never the reverse of what was created. -/
theorem lifecycleAsSpecified_false_of_success (env : Env) (windowP : Nat)
    (s : VulkanRenderer) (h : (init env windowP s).1 = .ok EXIT_SUCCESS) :
    ¬ lifecycleAsSpecified env windowP s := by
  intro hl
  obtain ⟨_, _, hrev⟩ := hl h
  obtain ⟨hc, hd⟩ := created_destroyed_of_init_clean env windowP s h
  rw [hc, hd] at hrev
  by_cases hv : env.enableValidationLayers = true
  · simp [hv] at hrev
  · simp only [Bool.not_eq_true] at hv
    simp [hv] at hrev

/-- The value `init` returns is one of the two exit codes. -/
theorem init_result_cases (env : Env) (windowP : Nat) (s : VulkanRenderer) :
    (init env windowP s).1 = .ok EXIT_FAILURE ∨ (init env windowP s).1 = .ok EXIT_SUCCESS := by
  rcases hb : initBody env { s with window := windowP } with ⟨r, t⟩
  cases r with
  | error e =>
    cases e with
    | runtime_error what => exact Or.inl (by simp [init, hb])
  | ok u =>
    cases u
    exact Or.inr (by simp [init, hb])

/-- With no device enumerated `init` fails, whatever the earlier steps do. -/
theorem init_fails_without_devices (env : Env) (windowP : Nat) (s : VulkanRenderer)
    (h : env.physicalDevices = []) : (init env windowP s).1 = .ok EXIT_FAILURE := by
  rcases init_result_cases env windowP s with hf | hs
  · exact hf
  · obtain ⟨s1, s2, s3, _, _, h3, _⟩ := init_ok_steps env windowP s hs
    rw [getPhysicalDevice_no_devices env s2 h] at h3
    simp at h3

/-- With devices enumerated but none of them suitable, `init` succeeds as soon
as the instance and the debug messenger are set up. -/
theorem init_succeeds_when_none_suitable (env : Env) (windowP : Nat)
    (s s1 s2 : VulkanRenderer)
    (h1 : createInstance env { s with window := windowP } = (.ok (), s1))
    (h2 : setupDebugMessenger env s1 = (.ok (), s2))
    (hne : env.physicalDevices ≠ [])
    (h : ∀ d ∈ env.physicalDevices, ¬ hasGraphicsFamily d) :
    (init env windowP s).1 = .ok EXIT_SUCCESS := by
  have h3 := (getPhysicalDevice_none_suitable env s2 hne h).1
  rcases hg : getPhysicalDevice env s2 with ⟨r3, s3⟩
  rw [hg] at h3
  simp only at h3
  subst h3
  simp [init, initBody, h1, h2, hg]

/-! ## Extension support (`checkInstanceExtensionSupport`) -/

/-- C10: `checkInstanceExtensionSupport` returns true exactly when every
requested name equals the `extensionName` of some extension the driver
reports; it returns true for an empty request list; and it stays true when
the driver reports further extensions. -/
theorem checkInstanceExtensionSupport_spec (env : Env) (checkExtensions : List String)
    (s : VulkanRenderer) :
    ((checkInstanceExtensionSupport env checkExtensions s).1 = true ↔
        ∀ n ∈ checkExtensions, ∃ e ∈ env.instanceExtensions, n = e.extensionName) ∧
    (checkInstanceExtensionSupport env [] s).1 = true ∧
    (∀ (env2 : Env) (s2 : VulkanRenderer),
        (∀ e ∈ env.instanceExtensions, e ∈ env2.instanceExtensions) →
        (checkInstanceExtensionSupport env checkExtensions s).1 = true →
        (checkInstanceExtensionSupport env2 checkExtensions s2).1 = true) := by
  have key : ∀ (v : Env) (req : List String) (t : VulkanRenderer),
      (checkInstanceExtensionSupport v req t).1 = true ↔
        ∀ n ∈ req, ∃ e ∈ v.instanceExtensions, n = e.extensionName := by
    intro v req t
    exact checkExtensionsLoop_iff v.instanceExtensions req
  refine ⟨key env checkExtensions s, (key env [] s).2 (by simp), ?_⟩
  intro env2 s2 hsub h
  refine (key env2 checkExtensions s2).2 ?_
  intro n hn
  obtain ⟨e, he, hne⟩ := (key env checkExtensions s).1 h n hn
  exact ⟨e, hsub e he, hne⟩

/-- C10 at a concrete request: both window-system extensions are reported,
and the answer survives moving to a driver that reports one more extension. -/
theorem checkInstanceExtensionSupport_spec_witness :
    (checkInstanceExtensionSupport
      { plainEnv with instanceExtensions := ⟨"VK_KHR_display", 23⟩ :: plainEnv.instanceExtensions }
      ["VK_KHR_surface", "VK_KHR_xcb_surface"] freshRenderer).1 = true :=
  (checkInstanceExtensionSupport_spec plainEnv ["VK_KHR_surface", "VK_KHR_xcb_surface"]
      freshRenderer).2.2
    { plainEnv with instanceExtensions := ⟨"VK_KHR_display", 23⟩ :: plainEnv.instanceExtensions }
    freshRenderer (by decide) (by decide)

/-! ## Queue families and device selection -/

/-- C4: `getQueueFamilies` returns a valid record exactly when some family
has `queueCount > 0` and the graphics bit set; a valid record holds the
smallest index of such a family, which is below the number of families. -/
theorem getQueueFamilies_spec (device : VkPhysicalDevice) (s : VulkanRenderer) :
    ((getQueueFamilies device s).1.isValid = true ↔
        ∃ q ∈ device.queueFamilies, graphicsCapable q) ∧
    ((getQueueFamilies device s).1.isValid = true →
        ∃ k : Nat, (getQueueFamilies device s).1.graphicsFamily = (k : Int) ∧
          k < device.queueFamilies.length ∧
          (∃ q, device.queueFamilies[k]? = some q ∧ graphicsCapable q) ∧
          ∀ j, j < k → ∀ q, device.queueFamilies[j]? = some q → ¬ graphicsCapable q) := by
  exact ⟨getQueueFamilies_valid_iff device s, getQueueFamilies_first_index device s⟩

/-- C4 on a device whose families are compute, graphics, graphics: the
record is valid and the index found is `1`. -/
theorem getQueueFamilies_spec_witness :
    ∃ k : Nat, (getQueueFamilies discreteGpu freshRenderer).1.graphicsFamily = (k : Int) ∧
      k < discreteGpu.queueFamilies.length ∧
      (∃ q, discreteGpu.queueFamilies[k]? = some q ∧ graphicsCapable q) ∧
      ∀ j, j < k → ∀ q, discreteGpu.queueFamilies[j]? = some q → ¬ graphicsCapable q :=
  (getQueueFamilies_spec discreteGpu freshRenderer).2 (by decide)

/-- C5: `checkDeviceSuitable` is true exactly for the devices that have a
family with `queueCount > 0` and the graphics bit set; and when the enumerated
list contains such a device, `getPhysicalDevice` raises no error and leaves in
`mainDevice.physicalDevice` the first such device in enumeration order. -/
theorem getPhysicalDevice_selects_first_suitable :
    (∀ (d : VkPhysicalDevice) (s : VulkanRenderer),
        (checkDeviceSuitable d s).1 = true ↔
          ∃ q ∈ d.queueFamilies, 0 < q.queueCount ∧ q.queueFlags.testBit 0 = true) ∧
    (∀ (env : Env) (s : VulkanRenderer),
        (∃ d ∈ env.physicalDevices, (checkDeviceSuitable d s).1 = true) →
        ∃ pre d post, env.physicalDevices = pre ++ d :: post ∧
          (∀ x ∈ pre, ∀ t, (checkDeviceSuitable x t).1 = false) ∧
          (∀ t, (checkDeviceSuitable d t).1 = true) ∧
          (getPhysicalDevice env s).1 = .ok () ∧
          (getPhysicalDevice env s).2.mainDevice.physicalDevice = d) := by
  refine ⟨fun d s => checkDeviceSuitable_iff d s, ?_⟩
  intro env s h
  have h2 : ∃ d ∈ env.physicalDevices, hasGraphicsFamily d := by
    obtain ⟨d, hd, hs⟩ := h
    exact ⟨d, hd, (checkDeviceSuitable_iff d s).1 hs⟩
  obtain ⟨pre, d, post, hl, hd, hpre⟩ := exists_first_split hasGraphicsFamily _ h2
  refine ⟨pre, d, post, hl, ?_, fun t => (checkDeviceSuitable_iff d t).2 hd, ?_, ?_⟩
  · intro x hx t
    have hn : ¬ (checkDeviceSuitable x t).1 = true := fun hc =>
      hpre x hx ((checkDeviceSuitable_iff x t).1 hc)
    simpa using hn
  · simp [getPhysicalDevice, hl]
  · simp only [getPhysicalDevice, hl]
    simp only [List.length_append, List.length_cons]
    rw [if_neg (by omega)]
    exact selectDeviceLoop_first pre d post _ hpre hd

/-- C5 on the sample machine: of the three enumerated devices the second is
the first suitable one, and it is the one selected. -/
theorem getPhysicalDevice_selects_first_suitable_witness :
    ∃ pre d post, plainEnv.physicalDevices = pre ++ d :: post ∧
      (∀ x ∈ pre, ∀ t, (checkDeviceSuitable x t).1 = false) ∧
      (∀ t, (checkDeviceSuitable d t).1 = true) ∧
      (getPhysicalDevice plainEnv freshRenderer).1 = .ok () ∧
      (getPhysicalDevice plainEnv freshRenderer).2.mainDevice.physicalDevice = d :=
  getPhysicalDevice_selects_first_suitable.2 plainEnv freshRenderer
    ⟨discreteGpu, by decide, by decide⟩

/-! ## The debug messenger -/

/-- C9: without validation layers `setupDebugMessenger` returns at once, the
state (native calls and `debugMessenger` included) untouched.  With them,
`createDebugUtilsMessengerEXT` looks the entry point up on the renderer's
instance.  When the lookup gives null it makes no further call and returns
`VK_ERROR_EXTENSION_NOT_PRESENT`, and `setupDebugMessenger` raises.  When the
lookup succeeds it calls the entry point with the populated create-info and
returns what the driver answers: on an answer other than `VK_SUCCESS`
`setupDebugMessenger` raises, on `VK_SUCCESS` it stores the new messenger and
raises nothing.  So `setupDebugMessenger` raises exactly when creating the
messenger does not yield `VK_SUCCESS`, that is, exactly when the driver does
not offer an entry point that answers `VK_SUCCESS`. -/
theorem setupDebugMessenger_spec (env : Env) (s : VulkanRenderer) :
    (env.enableValidationLayers = false → setupDebugMessenger env s = (.ok (), s)) ∧
    (env.enableValidationLayers = true →
      (env.debugUtilsEntryPoint = none →
        createDebugUtilsMessengerEXT env s.vkInstance (populateDebugMessengerCreateInfo env) s =
          (VK_ERROR_EXTENSION_NOT_PRESENT,
            s.call (.vkGetInstanceProcAddr s.vkInstance "vkCreateDebugUtilsMessengerEXT")) ∧
        setupDebugMessenger env s =
          (.error (.runtime_error "Failed to set up debug messenger."),
            s.call (.vkGetInstanceProcAddr s.vkInstance "vkCreateDebugUtilsMessengerEXT"))) ∧
      (∀ r, env.debugUtilsEntryPoint = some r → r ≠ VK_SUCCESS →
        createDebugUtilsMessengerEXT env s.vkInstance (populateDebugMessengerCreateInfo env) s =
          (r, (s.call (.vkGetInstanceProcAddr s.vkInstance "vkCreateDebugUtilsMessengerEXT")).call
            (.vkCreateDebugUtilsMessengerEXT s.vkInstance
              (populateDebugMessengerCreateInfo env))) ∧
        setupDebugMessenger env s =
          (.error (.runtime_error "Failed to set up debug messenger."),
            (s.call (.vkGetInstanceProcAddr s.vkInstance "vkCreateDebugUtilsMessengerEXT")).call
              (.vkCreateDebugUtilsMessengerEXT s.vkInstance
                (populateDebugMessengerCreateInfo env)))) ∧
      (env.debugUtilsEntryPoint = some VK_SUCCESS →
        createDebugUtilsMessengerEXT env s.vkInstance (populateDebugMessengerCreateInfo env) s =
          (VK_SUCCESS,
            { (s.call (.vkGetInstanceProcAddr s.vkInstance
                  "vkCreateDebugUtilsMessengerEXT")).call
                (.vkCreateDebugUtilsMessengerEXT s.vkInstance
                  (populateDebugMessengerCreateInfo env)) with
              debugMessenger := env.newMessenger }) ∧
        setupDebugMessenger env s =
          (.ok (),
            { (s.call (.vkGetInstanceProcAddr s.vkInstance
                  "vkCreateDebugUtilsMessengerEXT")).call
                (.vkCreateDebugUtilsMessengerEXT s.vkInstance
                  (populateDebugMessengerCreateInfo env)) with
              debugMessenger := env.newMessenger })) ∧
      ((∃ e, (setupDebugMessenger env s).1 = .error e) ↔
        (createDebugUtilsMessengerEXT env s.vkInstance
          (populateDebugMessengerCreateInfo env) s).1 ≠ VK_SUCCESS) ∧
      ((∃ e, (setupDebugMessenger env s).1 = .error e) ↔
        env.debugUtilsEntryPoint ≠ some VK_SUCCESS) ∧
      (setupDebugMessenger env s).2 =
        (createDebugUtilsMessengerEXT env s.vkInstance
          (populateDebugMessengerCreateInfo env) s).2) := by
  refine ⟨?_, ?_⟩
  · intro h
    simp [setupDebugMessenger, h]
  · intro h
    have hnone : env.debugUtilsEntryPoint = none →
        createDebugUtilsMessengerEXT env s.vkInstance (populateDebugMessengerCreateInfo env) s =
          (VK_ERROR_EXTENSION_NOT_PRESENT,
            s.call (.vkGetInstanceProcAddr s.vkInstance "vkCreateDebugUtilsMessengerEXT")) := by
      intro hp
      simp [createDebugUtilsMessengerEXT, hp]
    have hfail : ∀ r, env.debugUtilsEntryPoint = some r → r ≠ VK_SUCCESS →
        createDebugUtilsMessengerEXT env s.vkInstance (populateDebugMessengerCreateInfo env) s =
          (r, (s.call (.vkGetInstanceProcAddr s.vkInstance "vkCreateDebugUtilsMessengerEXT")).call
            (.vkCreateDebugUtilsMessengerEXT s.vkInstance
              (populateDebugMessengerCreateInfo env))) := by
      intro r hp hr
      simp [createDebugUtilsMessengerEXT, hp, hr]
    have hsucc : env.debugUtilsEntryPoint = some VK_SUCCESS →
        createDebugUtilsMessengerEXT env s.vkInstance (populateDebugMessengerCreateInfo env) s =
          (VK_SUCCESS,
            { (s.call (.vkGetInstanceProcAddr s.vkInstance
                  "vkCreateDebugUtilsMessengerEXT")).call
                (.vkCreateDebugUtilsMessengerEXT s.vkInstance
                  (populateDebugMessengerCreateInfo env)) with
              debugMessenger := env.newMessenger }) := by
      intro hp
      simp [createDebugUtilsMessengerEXT, hp]
    have hiff : (∃ e, (setupDebugMessenger env s).1 = .error e) ↔
        (createDebugUtilsMessengerEXT env s.vkInstance
          (populateDebugMessengerCreateInfo env) s).1 ≠ VK_SUCCESS := by
      by_cases hr : (createDebugUtilsMessengerEXT env s.vkInstance
          (populateDebugMessengerCreateInfo env) s).1 = VK_SUCCESS
      · simp [setupDebugMessenger, h, hr]
      · simp [setupDebugMessenger, h, hr]
    have hne : VK_ERROR_EXTENSION_NOT_PRESENT ≠ VK_SUCCESS := by decide
    refine ⟨?_, ?_, ?_, hiff, ?_, ?_⟩
    · intro hp
      refine ⟨hnone hp, ?_⟩
      simp [setupDebugMessenger, h, hnone hp, hne]
    · intro r hp hr
      refine ⟨hfail r hp hr, ?_⟩
      simp [setupDebugMessenger, h, hfail r hp hr, hr]
    · intro hp
      refine ⟨hsucc hp, ?_⟩
      simp [setupDebugMessenger, h, hsucc hp]
    · rw [hiff]
      cases hp : env.debugUtilsEntryPoint with
      | none => simp [hnone hp, hne]
      | some r =>
        by_cases hr : r = VK_SUCCESS
        · subst hr
          simp [hsucc hp]
        · simp [hfail r hp hr, hr]
    · by_cases hr : (createDebugUtilsMessengerEXT env s.vkInstance
          (populateDebugMessengerCreateInfo env) s).1 = VK_SUCCESS
      · simp [setupDebugMessenger, h, hr]
      · simp [setupDebugMessenger, h, hr]

/-- C9 on two validating builds.  Where the driver lacks the entry point, the
lookup is the only call and `setupDebugMessenger` raises.  Where the driver
creates the messenger, the lookup and the creation are called, handle 6 is
stored and nothing is raised. -/
theorem setupDebugMessenger_spec_witness :
    (createDebugUtilsMessengerEXT { validatingEnv with debugUtilsEntryPoint := none }
          freshRenderer.vkInstance
          (populateDebugMessengerCreateInfo { validatingEnv with debugUtilsEntryPoint := none })
          freshRenderer =
        (VK_ERROR_EXTENSION_NOT_PRESENT,
          freshRenderer.call
            (.vkGetInstanceProcAddr freshRenderer.vkInstance "vkCreateDebugUtilsMessengerEXT")) ∧
      setupDebugMessenger { validatingEnv with debugUtilsEntryPoint := none } freshRenderer =
        (.error (.runtime_error "Failed to set up debug messenger."),
          freshRenderer.call
            (.vkGetInstanceProcAddr freshRenderer.vkInstance
              "vkCreateDebugUtilsMessengerEXT"))) ∧
    setupDebugMessenger validatingEnv freshRenderer =
      (.ok (),
        { (freshRenderer.call (.vkGetInstanceProcAddr freshRenderer.vkInstance
              "vkCreateDebugUtilsMessengerEXT")).call
            (.vkCreateDebugUtilsMessengerEXT freshRenderer.vkInstance
              (populateDebugMessengerCreateInfo validatingEnv)) with
          debugMessenger := validatingEnv.newMessenger }) :=
  ⟨((setupDebugMessenger_spec { validatingEnv with debugUtilsEntryPoint := none }
      freshRenderer).2 rfl).1 rfl,
    (((setupDebugMessenger_spec validatingEnv freshRenderer).2 rfl).2.2.1 rfl).2⟩

/-! ## The sequence of `init` -/

/-- C3: `init` runs `createInstance`, `setupDebugMessenger` and
`getPhysicalDevice` in that order, each on the state the previous one left.
When a step raises, `init` ends in the state of that throw with only the
error line added (no later step has run) and returns `EXIT_FAILURE`; when none
raises it returns `EXIT_SUCCESS` in the state after the third step.  So the
result is `EXIT_FAILURE` exactly when a step raises, `EXIT_SUCCESS` otherwise,
and no exception leaves `init`. -/
theorem init_sequence (env : Env) (windowP : Nat) (s : VulkanRenderer) :
    ((∃ what s1, createInstance env { s with window := windowP } =
          (.error (.runtime_error what), s1) ∧
        init env windowP s = (.ok EXIT_FAILURE, reported what s1)) ∨
      (∃ s1 what s2, createInstance env { s with window := windowP } = (.ok (), s1) ∧
        setupDebugMessenger env s1 = (.error (.runtime_error what), s2) ∧
        init env windowP s = (.ok EXIT_FAILURE, reported what s2)) ∨
      (∃ s1 s2 what s3, createInstance env { s with window := windowP } = (.ok (), s1) ∧
        setupDebugMessenger env s1 = (.ok (), s2) ∧
        getPhysicalDevice env s2 = (.error (.runtime_error what), s3) ∧
        init env windowP s = (.ok EXIT_FAILURE, reported what s3)) ∨
      (∃ s1 s2 s3, createInstance env { s with window := windowP } = (.ok (), s1) ∧
        setupDebugMessenger env s1 = (.ok (), s2) ∧
        getPhysicalDevice env s2 = (.ok (), s3) ∧
        init env windowP s = (.ok EXIT_SUCCESS, s3))) ∧
    ((init env windowP s).1 = .ok EXIT_FAILURE ↔
      initStepRaises env { s with window := windowP }) ∧
    ((init env windowP s).1 = .ok EXIT_SUCCESS ↔
      ¬ initStepRaises env { s with window := windowP }) ∧
    (∀ e, (init env windowP s).1 ≠ .error e) := by
  have hne : EXIT_SUCCESS ≠ EXIT_FAILURE := by decide
  rcases h1 : createInstance env { s with window := windowP } with ⟨r1, s1⟩
  cases r1 with
  | error e =>
    cases e with
    | runtime_error what =>
      have hi : init env windowP s = (.ok EXIT_FAILURE, reported what s1) := by
        simp [init, initBody, h1, reported]
      have hr : initStepRaises env { s with window := windowP } :=
        Or.inl ⟨_, _, h1⟩
      refine ⟨Or.inl ⟨what, s1, rfl, hi⟩, ?_, ?_, ?_⟩
      · simp [hi, hr]
      · simp [hi, hr, hne.symm]
      · simp [hi]
  | ok u =>
    cases u
    rcases h2 : setupDebugMessenger env s1 with ⟨r2, s2⟩
    cases r2 with
    | error e =>
      cases e with
      | runtime_error what =>
        have hi : init env windowP s = (.ok EXIT_FAILURE, reported what s2) := by
          simp [init, initBody, h1, h2, reported]
        have hr : initStepRaises env { s with window := windowP } :=
          Or.inr (Or.inl ⟨_, _, _, h1, h2⟩)
        refine ⟨Or.inr (Or.inl ⟨s1, what, s2, rfl, h2, hi⟩), ?_, ?_, ?_⟩
        · simp [hi, hr]
        · simp [hi, hr, hne.symm]
        · simp [hi]
    | ok u =>
      cases u
      rcases h3 : getPhysicalDevice env s2 with ⟨r3, s3⟩
      cases r3 with
      | error e =>
        cases e with
        | runtime_error what =>
          have hi : init env windowP s = (.ok EXIT_FAILURE, reported what s3) := by
            simp [init, initBody, h1, h2, h3, reported]
          have hr : initStepRaises env { s with window := windowP } :=
            Or.inr (Or.inr ⟨_, _, _, _, h1, h2, h3⟩)
          refine ⟨Or.inr (Or.inr (Or.inl ⟨s1, s2, what, s3, rfl, h2, h3, hi⟩)), ?_, ?_, ?_⟩
          · simp [hi, hr]
          · simp [hi, hr, hne.symm]
          · simp [hi]
      | ok u =>
        cases u
        have hi : init env windowP s = (.ok EXIT_SUCCESS, s3) := by
          simp [init, initBody, h1, h2, h3]
        have hr : ¬ initStepRaises env { s with window := windowP } := by
          intro hx
          rcases hx with ⟨e, t1, ht⟩ | ⟨t1, e, t2, ht1, ht2⟩ | ⟨t1, t2, e, t3, ht1, ht2, ht3⟩
          · rw [h1] at ht; simp at ht
          · rw [h1] at ht1
            simp only [Prod.mk.injEq, true_and] at ht1
            subst ht1
            rw [h2] at ht2; simp at ht2
          · rw [h1] at ht1
            simp only [Prod.mk.injEq, true_and] at ht1
            subst ht1
            rw [h2] at ht2
            simp only [Prod.mk.injEq, true_and] at ht2
            subst ht2
            rw [h3] at ht3; simp at ht3
        refine ⟨Or.inr (Or.inr (Or.inr ⟨s1, s2, s3, rfl, h2, h3, hi⟩)), ?_, ?_, ?_⟩
        · simp [hi, hr, hne]
        · simp [hi, hr]
        · simp [hi]

/-! ## Instance creation -/

/-- C2: when some name returned by `getRequiredExtensions` is not the name of
any extension the driver reports, `createInstance` raises a runtime error
having made only the three enumeration queries (`vkCreateInstance` is not
among them), and `init` returns `EXIT_FAILURE` after the same three calls. -/
theorem createInstance_missing_extension (env : Env) (windowP : Nat) (s : VulkanRenderer)
    (h : ∃ n ∈ (getRequiredExtensions env s).1,
      ∀ e ∈ env.instanceExtensions, e.extensionName ≠ n) :
    (createInstance env s).1 =
      .error (.runtime_error "VkInstance does not support required extensions") ∧
    callsSince s (createInstance env s).2 =
      [.glfwGetRequiredInstanceExtensions,
        .vkEnumerateInstanceExtensionProperties false,
        .vkEnumerateInstanceExtensionProperties true] ∧
    (init env windowP s).1 = .ok EXIT_FAILURE ∧
    callsSince s (init env windowP s).2 =
      [.glfwGetRequiredInstanceExtensions,
        .vkEnumerateInstanceExtensionProperties false,
        .vkEnumerateInstanceExtensionProperties true] := by
  have hloop : ∀ t : VulkanRenderer,
      checkExtensionsLoop env.instanceExtensions (getRequiredExtensions env t).1 = false := by
    intro t
    have hn : ¬ checkExtensionsLoop env.instanceExtensions
        (getRequiredExtensions env t).1 = true := by
      intro hc
      obtain ⟨n, hn, hne⟩ := h
      have hn2 : n ∈ (getRequiredExtensions env t).1 := hn
      obtain ⟨e, he, hnm⟩ := (checkExtensionsLoop_iff _ _).1 hc n hn2
      exact hne e he hnm.symm
    simpa using hn
  have hc := createInstance_unsupported env s (hloop s)
  have hc2 := createInstance_unsupported env { s with window := windowP } (hloop _)
  refine ⟨by rw [hc], ?_, ?_, ?_⟩
  · rw [hc]; exact callsSince_of_append _ _ _ rfl
  · simp [init, initBody, hc2]
  · apply callsSince_of_append
    simp [init, initBody, hc2]

/-- C2 on a driver that lacks `VK_KHR_xcb_surface`: `init` fails in
`createInstance` and never reaches `vkCreateInstance`. -/
theorem createInstance_missing_extension_witness :
    (createInstance { plainEnv with instanceExtensions := [⟨"VK_KHR_surface", 25⟩] }
        freshRenderer).1 =
      .error (.runtime_error "VkInstance does not support required extensions") ∧
    callsSince freshRenderer
        (createInstance { plainEnv with instanceExtensions := [⟨"VK_KHR_surface", 25⟩] }
          freshRenderer).2 =
      [.glfwGetRequiredInstanceExtensions,
        .vkEnumerateInstanceExtensionProperties false,
        .vkEnumerateInstanceExtensionProperties true] ∧
    (init { plainEnv with instanceExtensions := [⟨"VK_KHR_surface", 25⟩] } 1
        freshRenderer).1 = .ok EXIT_FAILURE ∧
    callsSince freshRenderer
        (init { plainEnv with instanceExtensions := [⟨"VK_KHR_surface", 25⟩] } 1
          freshRenderer).2 =
      [.glfwGetRequiredInstanceExtensions,
        .vkEnumerateInstanceExtensionProperties false,
        .vkEnumerateInstanceExtensionProperties true] :=
  createInstance_missing_extension
    { plainEnv with instanceExtensions := [⟨"VK_KHR_surface", 25⟩] } 1 freshRenderer
    ⟨"VK_KHR_xcb_surface", by decide, by decide⟩

/-- C7: whenever `createInstance` calls `vkCreateInstance`, the enabled
extensions are the windowing library's required extensions in order, followed
by the debug-utils extension exactly in a validating build (the count being the
length as a `uint32_t`); the enabled layers are `validationLayers` in a
validating build and a null list of count 0 otherwise.  The call is reached
when the extension check and, in a validating build, the layer check pass.  In
a validating build with a validation layer the driver does not report,
`createInstance` raises and never calls `vkCreateInstance`. -/
theorem createInstance_createInfo (env : Env) (s : VulkanRenderer) :
    (∀ ci, NativeCall.vkCreateInstance ci ∈ callsSince s (createInstance env s).2 →
      ci.ppEnabledExtensionNames =
        env.glfwRequiredInstanceExtensions ++
          (if env.enableValidationLayers = true then [VK_EXT_DEBUG_UTILS_EXTENSION_NAME]
           else []) ∧
      ci.enabledExtensionCount = ci.ppEnabledExtensionNames.length % 4294967296 ∧
      (env.enableValidationLayers = true →
        ci.ppEnabledLayerNames = some validationLayers ∧
        ci.enabledLayerCount = validationLayers.length) ∧
      (env.enableValidationLayers = false →
        ci.ppEnabledLayerNames = none ∧ ci.enabledLayerCount = 0)) ∧
    ((∀ n ∈ (getRequiredExtensions env s).1,
        ∃ e ∈ env.instanceExtensions, n = e.extensionName) →
      (env.enableValidationLayers = true →
        ∀ l ∈ validationLayers, ∃ p ∈ env.instanceLayers, l = p.layerName) →
      ∃ ci, NativeCall.vkCreateInstance ci ∈ callsSince s (createInstance env s).2) ∧
    (env.enableValidationLayers = true →
      (∃ l ∈ validationLayers, ∀ p ∈ env.instanceLayers, p.layerName ≠ l) →
      (∃ what, (createInstance env s).1 = .error (.runtime_error what)) ∧
      ∀ ci, NativeCall.vkCreateInstance ci ∉ callsSince s (createInstance env s).2) := by
  have htrace := callsSince_of_append s (createInstance env s).2 _
    (by rw [createInstance_trace env s, List.append_assoc])
  refine ⟨?_, ?_, ?_⟩
  · intro ci hci
    rw [htrace] at hci
    have hci2 : ci = instanceCreateInfo env (getRequiredExtensions env s).1 := by
      by_cases hx : checkExtensionsLoop env.instanceExtensions
          (getRequiredExtensions env s).1 = true
      · by_cases hv : env.enableValidationLayers = true
        · by_cases hl : checkLayersLoop env.instanceLayers validationLayers = false
          · simp [hx, hv, hl] at hci
          · simpa [hx, hv, hl] using hci
        · simp only [Bool.not_eq_true] at hv
          simpa [hx, hv] using hci
      · simp [hx] at hci
    subst hci2
    obtain ⟨h1, h2, h3, h4⟩ := instanceCreateInfo_fields env (getRequiredExtensions env s).1
    refine ⟨by rw [h1, getRequiredExtensions_fst], by rw [h2, h1], h3, h4⟩
  · intro hx hl
    have hx2 := (checkExtensionsLoop_iff _ _).2 hx
    refine ⟨instanceCreateInfo env (getRequiredExtensions env s).1, ?_⟩
    rw [htrace]
    by_cases hv : env.enableValidationLayers = true
    · have hl2 := (checkLayersLoop_iff _ _).2 (hl hv)
      simp [hx2, hv, hl2]
    · simp only [Bool.not_eq_true] at hv
      simp [hx2, hv]
  · intro hv hmiss
    have hl : checkLayersLoop env.instanceLayers validationLayers = false := by
      have hn : ¬ checkLayersLoop env.instanceLayers validationLayers = true := by
        intro hc
        obtain ⟨l, hl, hne⟩ := hmiss
        obtain ⟨p, hp, hlp⟩ := (checkLayersLoop_iff _ _).1 hc l hl
        exact hne p hp hlp.symm
      simpa using hn
    refine ⟨createInstance_layers_missing env s hv hl, ?_⟩
    intro ci hci
    rw [htrace] at hci
    by_cases hx : checkExtensionsLoop env.instanceExtensions
        (getRequiredExtensions env s).1 = true
    · simp [hx, hv, hl] at hci
    · simp [hx] at hci

/-- C7 on a validating build whose driver reports no layers: `createInstance`
raises and `vkCreateInstance` is not called. -/
theorem createInstance_createInfo_witness :
    (∃ what, (createInstance { validatingEnv with instanceLayers := [] } freshRenderer).1 =
      .error (.runtime_error what)) ∧
    ∀ ci, NativeCall.vkCreateInstance ci ∉
      callsSince freshRenderer
        (createInstance { validatingEnv with instanceLayers := [] } freshRenderer).2 :=
  (createInstance_createInfo { validatingEnv with instanceLayers := [] } freshRenderer).2.2
    rfl ⟨"VK_LAYER_KHRONOS_validation", by decide, by decide⟩

/-! ## The logical device -/

/-- C8: `createLogicalDevice` queries the queue families of
`mainDevice.physicalDevice`, then calls `vkCreateDevice` on that device with
exactly one queue create-info, which requests one queue from the family
`getQueueFamilies` returned (converted to `uint32_t`, which keeps every valid
index of a family list within `uint32_t` range).  It raises exactly when
`vkCreateDevice` does not return `VK_SUCCESS`; on success the new device is
stored and queue 0 of the same family is fetched into `graphicsQueue`. -/
theorem createLogicalDevice_spec (env : Env) (s : VulkanRenderer) :
    (∃ dci qci,
      callsSince s (createLogicalDevice env s).2 =
        [.vkGetPhysicalDeviceQueueFamilyProperties s.mainDevice.physicalDevice.handle false,
          .vkGetPhysicalDeviceQueueFamilyProperties s.mainDevice.physicalDevice.handle true,
          .vkCreateDevice s.mainDevice.physicalDevice.handle dci] ++
        (if env.createDeviceResult = VK_SUCCESS then
          [.vkGetDeviceQueue env.newDevice
            (toUint32 (getQueueFamilies s.mainDevice.physicalDevice s).1.graphicsFamily) 0]
         else []) ∧
      dci.queueCreateInfoCount = 1 ∧ dci.pQueueCreateInfos = [qci] ∧
      qci.queueCount = 1 ∧
      qci.queueFamilyIndex =
        toUint32 (getQueueFamilies s.mainDevice.physicalDevice s).1.graphicsFamily) ∧
    ((∃ what, (createLogicalDevice env s).1 = .error (.runtime_error what)) ↔
      env.createDeviceResult ≠ VK_SUCCESS) ∧
    (env.createDeviceResult = VK_SUCCESS →
      (createLogicalDevice env s).1 = .ok () ∧
      (createLogicalDevice env s).2.mainDevice.logicalDevice = env.newDevice ∧
      (createLogicalDevice env s).2.mainDevice.physicalDevice = s.mainDevice.physicalDevice ∧
      (createLogicalDevice env s).2.graphicsQueue =
        env.deviceQueue env.newDevice
          (toUint32 (getQueueFamilies s.mainDevice.physicalDevice s).1.graphicsFamily) 0) ∧
    ((getQueueFamilies s.mainDevice.physicalDevice s).1.isValid = true →
      s.mainDevice.physicalDevice.queueFamilies.length ≤ 4294967296 →
      ((toUint32 (getQueueFamilies s.mainDevice.physicalDevice s).1.graphicsFamily : Nat) : Int) =
        (getQueueFamilies s.mainDevice.physicalDevice s).1.graphicsFamily) := by
  refine ⟨?_, ?_, ?_, ?_⟩
  · refine ⟨{ sType := VK_STRUCTURE_TYPE_DEVICE_CREATE_INFO
              queueCreateInfoCount := 1
              pQueueCreateInfos :=
                [{ sType := VK_STRUCTURE_TYPE_DEVICE_CREATE_INFO
                   queueFamilyIndex :=
                     toUint32 (getQueueFamilies s.mainDevice.physicalDevice s).1.graphicsFamily
                   queueCount := 1
                   pQueuePriorities := [1] }]
              enabledExtensionCount := 0
              ppEnabledExtensionNames := none },
            { sType := VK_STRUCTURE_TYPE_DEVICE_CREATE_INFO
              queueFamilyIndex :=
                toUint32 (getQueueFamilies s.mainDevice.physicalDevice s).1.graphicsFamily
              queueCount := 1
              pQueuePriorities := [1] },
            callsSince_of_append _ _ _ ?_, rfl, rfl, rfl, rfl⟩
    by_cases hr : env.createDeviceResult = VK_SUCCESS
    · simp [createLogicalDevice, getQueueFamilies, VulkanRenderer.call, hr]
    · simp [createLogicalDevice, getQueueFamilies, VulkanRenderer.call, hr]
  · by_cases hr : env.createDeviceResult = VK_SUCCESS
    · simp [createLogicalDevice, hr]
    · simp [createLogicalDevice, hr]
  · intro hr
    simp [createLogicalDevice, getQueueFamilies, VulkanRenderer.call, hr]
  · intro hv hlen
    obtain ⟨k, hk, hlt, _⟩ := getQueueFamilies_first_index s.mainDevice.physicalDevice s hv
    rw [hk, toUint32_natCast]
    have : k % 4294967296 = k := Nat.mod_eq_of_lt (by omega)
    rw [this]

/-- C8 with the second sample device selected: the first graphics family is
family 1, so one queue of family 1 is requested and its queue 0 fetched. -/
theorem createLogicalDevice_spec_witness :
    (createLogicalDevice plainEnv
        { freshRenderer with mainDevice := { physicalDevice := discreteGpu, logicalDevice := 0 } }).1 =
      .ok () ∧
    (createLogicalDevice plainEnv
        { freshRenderer with mainDevice := { physicalDevice := discreteGpu, logicalDevice := 0 } }
      ).2.mainDevice.logicalDevice = plainEnv.newDevice ∧
    (createLogicalDevice plainEnv
        { freshRenderer with mainDevice := { physicalDevice := discreteGpu, logicalDevice := 0 } }
      ).2.mainDevice.physicalDevice = discreteGpu ∧
    (createLogicalDevice plainEnv
        { freshRenderer with mainDevice := { physicalDevice := discreteGpu, logicalDevice := 0 } }
      ).2.graphicsQueue =
      plainEnv.deviceQueue plainEnv.newDevice
        (toUint32 (getQueueFamilies discreteGpu
          { freshRenderer with
            mainDevice := { physicalDevice := discreteGpu, logicalDevice := 0 } }).1.graphicsFamily)
        0 :=
  (createLogicalDevice_spec plainEnv
    { freshRenderer with mainDevice := { physicalDevice := discreteGpu, logicalDevice := 0 } }
    ).2.2.1 rfl


/-! ## Device discovery failures -/

/-- C1: on a machine whose single enumerated device has no queue family with
`queueCount > 0` and the graphics bit, `init` returns `EXIT_SUCCESS`, prints
nothing, and leaves `mainDevice.physicalDevice` as it was before `init`. -/
theorem init_succeeds_without_graphics_device :
    (∀ d ∈ noGraphicsEnv.physicalDevices, ¬ hasGraphicsFamily d) ∧
    (init noGraphicsEnv 1 freshRenderer).1 = .ok EXIT_SUCCESS ∧
    (init noGraphicsEnv 1 freshRenderer).2.stdout = [] ∧
    (init noGraphicsEnv 1 freshRenderer).2.mainDevice.physicalDevice =
      freshRenderer.mainDevice.physicalDevice := by
  decide

/-! ## Lifecycle -/

/-- C6: on the validating sample machine `init` succeeds and `clean` follows.
The instance (handle 5) is created first and then the debug messenger
(handle 6); no `vkCreateDevice` call is made at all; `clean` destroys the
never-created logical device held in `mainDevice.logicalDevice` (handle 0) and
then the instance, and leaves the messenger alive.  So the lifecycle as
specified does not hold of this run. -/
theorem lifecycleAsSpecified_fails :
    (init validatingEnv 1 freshRenderer).1 = .ok EXIT_SUCCESS ∧
    created validatingEnv
        (callsSince freshRenderer (clean (init validatingEnv 1 freshRenderer).2)) =
      [.inst 5, .messenger 6] ∧
    (callsSince freshRenderer (clean (init validatingEnv 1 freshRenderer).2)).any
        (createsDeviceOn
          (init validatingEnv 1 freshRenderer).2.mainDevice.physicalDevice.handle) = false ∧
    destroyed (callsSince (init validatingEnv 1 freshRenderer).2
        (clean (init validatingEnv 1 freshRenderer).2)) =
      [.device 0, .inst 5] ∧
    ¬ lifecycleAsSpecified validatingEnv 1 freshRenderer := by
  decide

end VulkanApp
